import Mathlib

/-!
# RATGDO garage-door component

A shallow embedding of `components/ratgdo/ratgdo.cpp`: the rolling-code command
builder and the requests built on it, the inbound frame interpreter, the serial
frame scanner, the state broadcaster, the obstruction detector and the
dry-contact interrupt handlers, followed by the properties established for them.

Conventions of the embedding:

* machine integers are natural numbers; a `% 2 ^ w` is written wherever a C++
  operation can wrap (`uint8_t`, `uint16_t`, `uint32_t`, `uint64_t`);
* member variables and function-local `static` variables become fields of the
  state records;
* the wire codec (`encode_wireline`, `decode_wireline`) comes from an external
  library, so every function that calls it takes it as the parameter `Wireline`;
* the enumerator values of the state enumerations are declared in a header that
  is not part of the source, so every function that names an enumerator takes
  them as the parameter `Declarations`;
* calls into the collaborators (output pin, serial port, delays, observers) are
  recorded, in program order, in the `effects` list of the component.
-/

namespace Ratgdo

/-! ## Data model -/

/-- A frame buffer, `uint8_t buf[CODE_LENGTH]`: a list of exactly 19 bytes
(`gdoStateLoop` completes a frame at byte count 19 and `printRollingCode` prints
the indices 0 to 18). -/
structure Frame where
  bytes : List Nat
  size : bytes.length = 19
  deriving DecidableEq

/-- The buffer `f` after the C++ assignment `f[i] = v`. -/
def Frame.write (f : Frame) (i v : Nat) : Frame :=
  ⟨f.bytes.set i v, by rw [List.length_set]; exact f.size⟩

/-- The command enumeration switched on by `getRollingCode`: its ten case labels,
and `other raw` for a value of the enumeration type that is none of them (the
`default` branch). -/
inductive Commands
  | REBOOT1
  | REBOOT2
  | REBOOT3
  | REBOOT4
  | REBOOT5
  | REBOOT6
  | DOOR1
  | DOOR2
  | LIGHT
  | LOCK
  | other (raw : Nat)
  deriving DecidableEq, Repr

/-- The external wire codec. `encode_wireline rolling fixed data packet` is the
content of the 19-byte output buffer after the call (`packet` is its content
before the call); `decode_wireline packet` is the triple left in the output
variables `rolling`, `fixed`, `data`, which the caller initialises to zero. -/
structure Wireline where
  encode_wireline : Nat → Nat → Nat → Frame → Frame
  decode_wireline : Frame → Nat × Nat × Nat

/-- A call into a collaborator, recorded in program order. In the five observer
callbacks `child` identifies the registered observer that is called and `val` is
the state value it receives. -/
inductive Effect
  | gdoWrite (level : Bool)
  | delayMicroseconds (us : Nat)
  | delay (ms : Nat)
  | serialWrite (packet : Frame)
  | onDoorState (child val : Nat)
  | onLightState (child val : Nat)
  | onLockState (child val : Nat)
  | onMotionState (child val : Nat)
  | onObstructionState (child val : Nat)
  | statusDoorWrite (level : Bool)
  | statusObstWrite (level : Bool)
  deriving DecidableEq

/-- The five state channels that observers are notified about. -/
inductive Channel
  | door
  | light
  | lock
  | motion
  | obstruction
  deriving DecidableEq, Repr

/-- The declarations of the headers `ratgdo.h` and `ratgdo_state.h` that the
source refers to without containing them, taken as a parameter: the numeric
value of each enumerator of the five state enumerations, and whether the store
field `lastObstructionHigh` is declared with a signed type (which decides
whether `currentMillis - lastObstructionHigh` in `obstructionLoop` is a signed
or an unsigned 32-bit difference; `currentMillis` is a `long` there). -/
structure Declarations where
  DOOR_STATE_UNKNOWN : Nat
  DOOR_STATE_OPEN : Nat
  DOOR_STATE_CLOSED : Nat
  DOOR_STATE_OPENING : Nat
  DOOR_STATE_CLOSING : Nat
  DOOR_STATE_STOPPED : Nat
  LIGHT_STATE_UNKNOWN : Nat
  LIGHT_STATE_ON : Nat
  LIGHT_STATE_OFF : Nat
  LOCK_STATE_UNKNOWN : Nat
  LOCK_STATE_LOCKED : Nat
  LOCK_STATE_UNLOCKED : Nat
  MOTION_STATE_CLEAR : Nat
  MOTION_STATE_DETECTED : Nat
  OBSTRUCTION_STATE_UNKNOWN : Nat
  OBSTRUCTION_STATE_CLEAR : Nat
  OBSTRUCTION_STATE_OBSTRUCTED : Nat
  lastObstructionHighSigned : Bool

/-- The record `RATGDOStore` shared between the interrupt handlers and the main
loop; the five state fields are the `uint8_t` variables handed by reference to
`readRollingCode`. -/
structure RATGDOStore where
  dryContactDoorOpen : Bool
  dryContactDoorClose : Bool
  dryContactToggleLight : Bool
  obstructionLowCount : Nat
  lastObstructionHigh : Nat
  obstructionState : Nat
  motionState : Nat
  lockState : Nat
  lightState : Nat
  doorState : Nat
  deriving DecidableEq

/-- The component: its member variables, the function-local statics of the
main-loop functions, the persisted counter and the recorded effects. -/
structure RATGDOComponent where
  store_ : RATGDOStore
  rollingCodeCounter : Nat
  txRollingCode : Frame
  rxRollingCode : Frame
  /-- the value last written by `pref_.save`, if any -/
  pref_ : Option Nat
  /-- the `static uint32_t msgStart` of `gdoStateLoop` -/
  msgStart : Nat
  /-- the `static bool reading` of `gdoStateLoop` -/
  reading : Bool
  /-- the `static uint16_t byteCount` of `gdoStateLoop` -/
  byteCount : Nat
  /-- the `static unsigned long lastMillis` of `obstructionLoop` -/
  lastMillis : Nat
  /-- the four `static uint8_t previous...State` of `statusUpdateLoop` -/
  previousDoorState : Nat
  previousLightState : Nat
  previousLockState : Nat
  previousObstructionState : Nat
  /-- collaborator calls made so far, oldest first -/
  effects : List Effect
  /-- the receive buffer at each call of `readRollingCode` so far, oldest first -/
  ingested : List Frame
  /-- the registered observers (`children_`), in registration order -/
  children_ : List Nat

/-- Record one collaborator call. -/
def RATGDOComponent.emit (s : RATGDOComponent) (e : Effect) : RATGDOComponent :=
  { s with effects := s.effects ++ [e] }

/-! ## Outbound path -/

/-- Embedding of `RATGDOComponent::getRollingCode`: look the command up, encode a frame with
the current counter into `txRollingCode`, then advance the counter unless the
command is `DOOR1`. The `default` branch returns without touching anything.
The counter update is `(counter + 1) & 0xfffffff`; the mask keeps 28 bits, so
the width of the counter variable does not affect the result. -/
def getRollingCode (w : Wireline) (command : Commands) (s : RATGDOComponent) :
    RATGDOComponent :=
  let id : Nat := 0x539
  let payload : Option (Nat × Nat) :=
    match command with
    | .REBOOT1 => some (0x400000000, 0x0000618b)
    | .REBOOT2 => some (0, 0x01009080)
    | .REBOOT3 => some (0, 0x0000b1a0)
    | .REBOOT4 => some (0, 0x01009080)
    | .REBOOT5 => some (0x300000000, 0x00008092)
    | .REBOOT6 => some (0x300000000, 0x00008092)
    | .DOOR1 => some (0x200000000, 0x01018280)
    | .DOOR2 => some (0x200000000, 0x01009280)
    | .LIGHT => some (0x200000000, 0x00009281)
    | .LOCK => some (0x0100000000, 0x0000728c)
    | .other _ => none
  match payload with
  | none => s
  | some (fixed, data) =>
    let fixed := fixed ||| id
    let s := { s with
      txRollingCode := w.encode_wireline s.rollingCodeCounter fixed data s.txRollingCode }
    if command ≠ Commands.DOOR1 then
      { s with rollingCodeCounter := (s.rollingCodeCounter + 1) &&& 0xfffffff }
    else s

/-- Embedding of `RATGDOComponent::transmit`: build the frame, pulse the output line, write
the transmit buffer to the serial port. -/
def transmit (w : Wireline) (command : Commands) (s : RATGDOComponent) : RATGDOComponent :=
  let s := getRollingCode w command s
  let s := s.emit (.gdoWrite true)
  let s := s.emit (.delayMicroseconds 1305)
  let s := s.emit (.gdoWrite false)
  let s := s.emit (.delayMicroseconds 1260)
  s.emit (.serialWrite s.txRollingCode)

/-- Embedding of `RATGDOComponent::toggleDoor`: `DOOR1`, 40 ms, `DOOR2`, then save the counter. -/
def toggleDoor (w : Wireline) (s : RATGDOComponent) : RATGDOComponent :=
  let s := transmit w .DOOR1 s
  let s := s.emit (.delay 40)
  let s := transmit w .DOOR2 s
  { s with pref_ := some s.rollingCodeCounter }

/-- Embedding of `RATGDOComponent::sendCommand`: transmit one command, then save the counter. -/
def sendCommand (w : Wireline) (command : Commands) (s : RATGDOComponent) : RATGDOComponent :=
  let s := transmit w command s
  { s with pref_ := some s.rollingCodeCounter }

/-- Embedding of `RATGDOComponent::sync`: the six reboot commands, 65 ms after
each, then save the counter. -/
def sync (w : Wireline) (s : RATGDOComponent) : RATGDOComponent :=
  let s := transmit w .REBOOT1 s
  let s := s.emit (.delay 65)
  let s := transmit w .REBOOT2 s
  let s := s.emit (.delay 65)
  let s := transmit w .REBOOT3 s
  let s := s.emit (.delay 65)
  let s := transmit w .REBOOT4 s
  let s := s.emit (.delay 65)
  let s := transmit w .REBOOT5 s
  let s := s.emit (.delay 65)
  let s := transmit w .REBOOT6 s
  let s := s.emit (.delay 65)
  { s with pref_ := some s.rollingCodeCounter }

/-- Embedding of `RATGDOComponent::openDoor`. -/
def openDoor (d : Declarations) (w : Wireline) (s : RATGDOComponent) : RATGDOComponent :=
  if s.store_.doorState = d.DOOR_STATE_OPEN ∨ s.store_.doorState = d.DOOR_STATE_OPENING then s
  else toggleDoor w s

/-- Embedding of `RATGDOComponent::closeDoor`. -/
def closeDoor (d : Declarations) (w : Wireline) (s : RATGDOComponent) : RATGDOComponent :=
  if s.store_.doorState = d.DOOR_STATE_CLOSED ∨ s.store_.doorState = d.DOOR_STATE_CLOSING then s
  else toggleDoor w s

/-- Embedding of `RATGDOComponent::stopDoor`. -/
def stopDoor (d : Declarations) (w : Wireline) (s : RATGDOComponent) : RATGDOComponent :=
  if s.store_.doorState = d.DOOR_STATE_OPENING ∨ s.store_.doorState = d.DOOR_STATE_CLOSING then
    toggleDoor w s
  else s

/-- Embedding of `RATGDOComponent::toggleLight`. -/
def toggleLight (w : Wireline) (s : RATGDOComponent) : RATGDOComponent :=
  sendCommand w .LIGHT s

/-- Embedding of `RATGDOComponent::lightOn`. -/
def lightOn (d : Declarations) (w : Wireline) (s : RATGDOComponent) : RATGDOComponent :=
  if s.store_.lightState = d.LIGHT_STATE_ON then s else toggleLight w s

/-- Embedding of `RATGDOComponent::lightOff`. -/
def lightOff (d : Declarations) (w : Wireline) (s : RATGDOComponent) : RATGDOComponent :=
  if s.store_.lightState = d.LIGHT_STATE_OFF then s else toggleLight w s

/-- Embedding of `RATGDOComponent::toggleLock`. -/
def toggleLock (w : Wireline) (s : RATGDOComponent) : RATGDOComponent :=
  sendCommand w .LOCK s

/-- Embedding of `RATGDOComponent::lock`. -/
def lock (d : Declarations) (w : Wireline) (s : RATGDOComponent) : RATGDOComponent :=
  if s.store_.lockState = d.LOCK_STATE_LOCKED then s else toggleLock w s

/-- Embedding of `RATGDOComponent::unlock`. -/
def unlock (d : Declarations) (w : Wireline) (s : RATGDOComponent) : RATGDOComponent :=
  if s.store_.lockState = d.LOCK_STATE_UNLOCKED then s else toggleLock w s

/-- A command is in the command table when it is one of the ten case labels. -/
def Commands.inTable : Commands → Bool
  | .other _ => false
  | _ => true

/-- The component after calling `getRollingCode` once per command of `cmds`, in order. -/
def getRollingCodes (w : Wireline) (cmds : List Commands) (s : RATGDOComponent) :
    RATGDOComponent :=
  cmds.foldl (fun acc c => getRollingCode w c acc) s

/-- The packets handed to the serial port, oldest first. -/
def serialWrites : List Effect → List Frame
  | [] => []
  | .serialWrite p :: es => p :: serialWrites es
  | _ :: es => serialWrites es

/-! ## Inbound path -/

/-- The opcode of a decoded frame, `((fixed >> 24) & 0xf00) | (data & 0xff)`. -/
def opcode (fixed data : Nat) : Nat :=
  ((fixed >>> 24) &&& 0xf00) ||| (data &&& 0xff)

/-- Embedding of `RATGDOComponent::readRollingCode`. The five `uint8_t&`
parameters are bound to the state fields of the store at the only call site
(`gdoStateLoop`), so the function is written as an update of the store; `rx` is
the receive buffer `rxRollingCode`. The locals `fixed` (`uint64_t`), `data`
(`uint32_t`), `cmd` (`uint16_t`) and `nibble`, `byte2` (`uint8_t`) are truncated
to their widths; the local `byte1` is computed and never read, so it is left
out. -/
def readRollingCode (w : Wireline) (rx : Frame) (st : RATGDOStore) : RATGDOStore :=
  let decoded := w.decode_wireline rx
  let fixed : Nat := decoded.2.1 % 2 ^ 64
  let data : Nat := decoded.2.2 % 2 ^ 32
  let cmd : Nat := (((fixed >>> 24) &&& 0xf00) ||| (data &&& 0xff)) % 2 ^ 16
  let nibble : Nat := ((data >>> 8) &&& 0xf) % 2 ^ 8
  let byte2 : Nat := ((data >>> 24) &&& 0xff) % 2 ^ 8
  if cmd = 0x81 then
    { st with
      doorState := nibble
      lightState := ((byte2 >>> 1) &&& 1) % 2 ^ 8
      lockState := (byte2 &&& 1) % 2 ^ 8
      motionState := 0 }
  else if cmd = 0x281 then
    { st with lightState := (st.lightState ^^^ 1) % 2 ^ 8 }
  else if cmd = 0x84 then
    st
  else if cmd = 0x285 then
    { st with motionState := 1 }
  else
    st

/-- Embedding of `RATGDOComponent::gdoStateLoop`. `input` is `none` when
`swSerial.available()` is false and `some b` when `swSerial.read()` yields `b`.
The first component of `scanned` is the state after the `if (!reading)` block,
the second tells whether that block executed its `return`. -/
def gdoStateLoop (w : Wireline) (input : Option Nat) (s : RATGDOComponent) : RATGDOComponent :=
  match input with
  | none => s
  | some raw =>
    let serData : Nat := raw % 2 ^ 8
    let scanned : RATGDOComponent × Bool :=
      if s.reading = false then
        let s : RATGDOComponent := { s with msgStart := (s.msgStart <<< 8) % 2 ^ 32 }
        let s : RATGDOComponent := { s with msgStart := s.msgStart ||| serData }
        let s : RATGDOComponent := { s with msgStart := s.msgStart &&& 0x00FFFFFF }
        if s.msgStart = 0x550100 then
          let s : RATGDOComponent := { s with byteCount := 3 }
          let s : RATGDOComponent := { s with rxRollingCode := s.rxRollingCode.write 0 0x55 }
          let s : RATGDOComponent := { s with rxRollingCode := s.rxRollingCode.write 1 0x01 }
          let s : RATGDOComponent := { s with rxRollingCode := s.rxRollingCode.write 2 0x00 }
          ({ s with reading := true }, true)
        else (s, false)
      else (s, false)
    if scanned.2 then scanned.1
    else
      let s : RATGDOComponent := scanned.1
      if s.reading then
        let s : RATGDOComponent := { s with rxRollingCode := s.rxRollingCode.write s.byteCount serData }
        let s : RATGDOComponent := { s with byteCount := (s.byteCount + 1) % 2 ^ 16 }
        if s.byteCount = 19 then
          let s : RATGDOComponent := { s with reading := false, msgStart := 0, byteCount := 0 }
          { s with
            store_ := readRollingCode w s.rxRollingCode s.store_
            ingested := s.ingested ++ [s.rxRollingCode] }
        else s
      else s

/-- The component after one call of `gdoStateLoop` per byte of `bytes`, in order. -/
def feed (w : Wireline) (bytes : List Nat) (s : RATGDOComponent) : RATGDOComponent :=
  bytes.foldl (fun acc b => gdoStateLoop w (some b) acc) s

/-- The shift register after `gdoStateLoop` shifts the byte `b` in:
`msgStart <<= 8; msgStart |= serData; msgStart &= 0x00FFFFFF`. -/
def shiftIn (msgStart b : Nat) : Nat :=
  ((msgStart <<< 8) % 2 ^ 32 ||| b % 2 ^ 8) &&& 0x00FFFFFF

/-- The component `s` with its scanner in scanning mode and shift register `m`. -/
def scanning (s : RATGDOComponent) (m : Nat) : RATGDOComponent :=
  { s with msgStart := m, reading := false }

/-- The component `s` with its scanner in capturing mode, `n` bytes captured in
the receive buffer `rx`. -/
def capturing (s : RATGDOComponent) (n : Nat) (rx : Frame) : RATGDOComponent :=
  { s with msgStart := 0x550100, reading := true, byteCount := n, rxRollingCode := rx }

/-- The component `s` once its scanner has completed the frame `rx` and handed
it to `readRollingCode`. -/
def emitted (w : Wireline) (s : RATGDOComponent) (rx : Frame) : RATGDOComponent :=
  { s with
    msgStart := 0, reading := false, byteCount := 0, rxRollingCode := rx
    store_ := readRollingCode w rx s.store_
    ingested := s.ingested ++ [rx] }

/-- The buffer `rx` after the capturing scanner has stored the bytes `bs` from
index `n` on (each truncated to `uint8_t`). -/
def fill (rx : Frame) (n : Nat) : List Nat → Frame
  | [] => rx
  | b :: bs => fill (rx.write n (b % 2 ^ 8)) (n + 1) bs

/-- The scanner of `s` cannot complete a frame within the next `n` bytes: it is
scanning and `n` is at most 16, or it is capturing and fewer than 19 bytes will
have been captured after `n` more. -/
def quietFor (s : RATGDOComponent) (n : Nat) : Prop :=
  (s.reading = false ∧ n ≤ 16) ∨ (s.reading = true ∧ s.byteCount + n ≤ 18)

/-- What holds of the scanner whenever it is capturing: the byte count is from 3
to 18 and the receive buffer starts with the preamble. -/
def captureInv (s : RATGDOComponent) : Prop :=
  s.reading = true →
    3 ≤ s.byteCount ∧ s.byteCount ≤ 18 ∧ s.rxRollingCode.bytes.take 3 = [0x55, 0x01, 0x00]

/-- The values of the six enumerators of `DoorState`. -/
def doorStates (d : Declarations) : List Nat :=
  [d.DOOR_STATE_UNKNOWN, d.DOOR_STATE_OPEN, d.DOOR_STATE_CLOSED, d.DOOR_STATE_OPENING,
   d.DOOR_STATE_CLOSING, d.DOOR_STATE_STOPPED]

/-- A codec whose decoder always yields `fixed = 0` and the given `data`; used to
present `readRollingCode` with a chosen decoded frame. -/
def constWireline (data : Nat) : Wireline :=
  { encode_wireline := fun _ _ _ packet => packet
    decode_wireline := fun _ => (0, 0, data) }

/-! ## State broadcaster -/

/-- Embedding of `RATGDOComponent::sendDoorStatus`: every registered observer, in
registration order, receives the door state; then the door status pin is
written. -/
def sendDoorStatus (s : RATGDOComponent) : RATGDOComponent :=
  let val : Nat := s.store_.doorState
  let s : RATGDOComponent :=
    { s with effects := s.effects ++ s.children_.map (fun child => Effect.onDoorState child val) }
  s.emit (.statusDoorWrite (s.store_.doorState == 1))

/-- Embedding of `RATGDOComponent::sendLightStatus`. -/
def sendLightStatus (s : RATGDOComponent) : RATGDOComponent :=
  let val : Nat := s.store_.lightState
  { s with effects := s.effects ++ s.children_.map (fun child => Effect.onLightState child val) }

/-- Embedding of `RATGDOComponent::sendLockStatus`. -/
def sendLockStatus (s : RATGDOComponent) : RATGDOComponent :=
  let val : Nat := s.store_.lockState
  { s with effects := s.effects ++ s.children_.map (fun child => Effect.onLockState child val) }

/-- Embedding of `RATGDOComponent::sendMotionStatus`. -/
def sendMotionStatus (s : RATGDOComponent) : RATGDOComponent :=
  let val : Nat := s.store_.motionState
  { s with effects := s.effects ++ s.children_.map (fun child => Effect.onMotionState child val) }

/-- Embedding of `RATGDOComponent::sendObstructionStatus`: the observers are
notified, then the obstruction status pin is written. -/
def sendObstructionStatus (s : RATGDOComponent) : RATGDOComponent :=
  let val : Nat := s.store_.obstructionState
  let s : RATGDOComponent :=
    { s with
      effects := s.effects ++ s.children_.map (fun child => Effect.onObstructionState child val) }
  s.emit (.statusObstWrite (s.store_.obstructionState == 0))

/-- Embedding of `RATGDOComponent::statusUpdateLoop`. The assignment of the
enumerator `MOTION_STATE_CLEAR` to the `uint8_t` field is truncated to a byte. -/
def statusUpdateLoop (d : Declarations) (s : RATGDOComponent) : RATGDOComponent :=
  let s : RATGDOComponent :=
    if s.store_.doorState ≠ s.previousDoorState then sendDoorStatus s else s
  let s : RATGDOComponent :=
    if s.store_.lightState ≠ s.previousLightState then sendLightStatus s else s
  let s : RATGDOComponent :=
    if s.store_.lockState ≠ s.previousLockState then sendLockStatus s else s
  let s : RATGDOComponent :=
    if s.store_.obstructionState ≠ s.previousObstructionState then sendObstructionStatus s
    else s
  let s : RATGDOComponent :=
    if s.store_.motionState = d.MOTION_STATE_DETECTED then
      let s : RATGDOComponent := sendMotionStatus s
      let s : RATGDOComponent :=
        { s with store_ := { s.store_ with motionState := d.MOTION_STATE_CLEAR % 2 ^ 8 } }
      sendMotionStatus s
    else s
  { s with
    previousDoorState := s.store_.doorState
    previousLightState := s.store_.lightState
    previousLockState := s.store_.lockState
    previousObstructionState := s.store_.obstructionState }

/-- The component with the function-local statics of the main-loop functions at
their initialisers: the scanner scanning with a zero shift register and byte
count, `lastMillis` zero, and the four previous-pass values Unknown. -/
def initialStatics (d : Declarations) (s : RATGDOComponent) : RATGDOComponent :=
  { s with
    msgStart := 0
    reading := false
    byteCount := 0
    lastMillis := 0
    previousDoorState := d.DOOR_STATE_UNKNOWN % 2 ^ 8
    previousLightState := d.LIGHT_STATE_UNKNOWN % 2 ^ 8
    previousLockState := d.LOCK_STATE_UNKNOWN % 2 ^ 8
    previousObstructionState := d.OBSTRUCTION_STATE_UNKNOWN % 2 ^ 8 }

/-- The observer callback recorded by an effect, as channel, observer and value. -/
def Effect.notification : Effect → Option (Channel × Nat × Nat)
  | .onDoorState child val => some (.door, child, val)
  | .onLightState child val => some (.light, child, val)
  | .onLockState child val => some (.lock, child, val)
  | .onMotionState child val => some (.motion, child, val)
  | .onObstructionState child val => some (.obstruction, child, val)
  | _ => none

/-- The observer callback on the channel `ch` recorded by an effect, if it is
one, as the pair of the observer called and the value it received. -/
def Effect.notificationOn (ch : Channel) (e : Effect) : Option (Nat × Nat) :=
  match e.notification with
  | some (c, child, val) => if c = ch then some (child, val) else none
  | none => none

/-- The notifications on the channel `ch` among the effects, oldest first, each
as the pair of the observer called and the value it received. -/
def notifications (ch : Channel) (es : List Effect) : List (Nat × Nat) :=
  es.filterMap (Effect.notificationOn ch)

/-! ## Dry-contact interrupt handlers -/

/-- The constant `STARTUP_DELAY`, in milliseconds. -/
def STARTUP_DELAY : Nat := 2000

/-- Subtraction of two `unsigned long` (32-bit) values. -/
def sub32 (a b : Nat) : Nat := (a % 2 ^ 32 + 2 ^ 32 - b % 2 ^ 32) % 2 ^ 32

/-- What the three contact handlers work on: the store they receive as `arg`,
and the `static unsigned long` of each handler. -/
structure ContactIsr where
  arg : RATGDOStore
  lastOpenDoorTime : Nat
  lastCloseDoorTime : Nat
  lastToggleLightTime : Nat
  deriving DecidableEq

/-- Embedding of `RATGDOStore::isrDoorOpen`; `currentMillis` is the value of
`millis()` and `pin` the value of `trigger_open.digital_read()`. -/
def isrDoorOpen (currentMillis : Nat) (pin : Bool) (c : ContactIsr) : ContactIsr :=
  if currentMillis < STARTUP_DELAY then c
  else if !pin then
    { c with lastOpenDoorTime := currentMillis }
  else if sub32 currentMillis c.lastOpenDoorTime > 500
      ∧ sub32 currentMillis c.lastOpenDoorTime < 10000 then
    { c with arg := { c.arg with dryContactDoorOpen := true } }
  else c

/-- Embedding of `RATGDOStore::isrDoorClose`; `currentMillis` is the value of
`millis()` and `pin` the value of `trigger_close.digital_read()`. -/
def isrDoorClose (currentMillis : Nat) (pin : Bool) (c : ContactIsr) : ContactIsr :=
  if currentMillis < STARTUP_DELAY then c
  else if !pin then
    { c with lastCloseDoorTime := currentMillis }
  else if sub32 currentMillis c.lastCloseDoorTime > 500
      ∧ sub32 currentMillis c.lastCloseDoorTime < 10000 then
    { c with arg := { c.arg with dryContactDoorClose := true } }
  else c

/-- Embedding of `RATGDOStore::isrLight`; `currentMillis` is the value of
`millis()` and `pin` the value of `trigger_light.digital_read()`. -/
def isrLight (currentMillis : Nat) (pin : Bool) (c : ContactIsr) : ContactIsr :=
  if currentMillis < STARTUP_DELAY then c
  else if !pin then
    { c with lastToggleLightTime := currentMillis }
  else if sub32 currentMillis c.lastToggleLightTime > 500
      ∧ sub32 currentMillis c.lastToggleLightTime < 10000 then
    { c with arg := { c.arg with dryContactToggleLight := true } }
  else c

/-- One of the three contact inputs, each with its own interrupt handler. -/
inductive Contact
  | doorOpen
  | doorClose
  | light
  deriving DecidableEq, Repr

/-- An edge on a contact input: the handler runs with `millis()` equal to
`millis` and reads the level `pin` (false after a falling edge, true after a
rising edge). -/
structure Edge where
  contact : Contact
  millis : Nat
  pin : Bool
  deriving DecidableEq, Repr

/-- The handler attached to the contact of the edge `e`, run on that edge. -/
def contactIsr (e : Edge) (c : ContactIsr) : ContactIsr :=
  match e.contact with
  | .doorOpen => isrDoorOpen e.millis e.pin c
  | .doorClose => isrDoorClose e.millis e.pin c
  | .light => isrLight e.millis e.pin c

/-- The debouncer state after the handlers have run on the edges of `edges`, in order. -/
def runEdges (edges : List Edge) (c : ContactIsr) : ContactIsr :=
  edges.foldl (fun acc e => contactIsr e acc) c

/-! ## Obstruction detection -/

/-- The test `currentMillis - lastObstructionHigh > 70` of `obstructionLoop` on
32-bit values: when `lastObstructionHigh` is declared signed the difference of
the two `long` values is signed, so it must be a positive difference above 70;
otherwise the `long` is converted and the difference is unsigned. -/
def highFor70 (d : Declarations) (currentMillis lastObstructionHigh : Nat) : Bool :=
  if d.lastObstructionHighSigned then
    decide (70 < sub32 currentMillis lastObstructionHigh
      ∧ sub32 currentMillis lastObstructionHigh < 2 ^ 31)
  else
    decide (70 < sub32 currentMillis lastObstructionHigh)

/-- Embedding of `RATGDOComponent::obstructionLoop`; `currentMillis` is the value
of `millis()` and `pin` the value of `input_obst_pin_->digital_read()`. The
difference `currentMillis - lastMillis` of a `long` and an `unsigned long` is an
unsigned 32-bit difference. The assignments of enumerators to the `uint8_t`
field are truncated to a byte. -/
def obstructionLoop (d : Declarations) (currentMillis : Nat) (pin : Bool)
    (s : RATGDOComponent) : RATGDOComponent :=
  if sub32 currentMillis s.lastMillis > 50 then
    let s : RATGDOComponent :=
      if s.store_.obstructionLowCount ≥ 3 ∧ s.store_.obstructionLowCount ≤ 8 then
        { s with
          store_ := { s.store_ with obstructionState := d.OBSTRUCTION_STATE_CLEAR % 2 ^ 8 } }
      else if s.store_.obstructionLowCount = 0 then
        if pin && highFor70 d currentMillis s.store_.lastObstructionHigh then
          { s with
            store_ :=
              { s.store_ with obstructionState := d.OBSTRUCTION_STATE_OBSTRUCTED % 2 ^ 8 } }
        else s
      else s
    let s : RATGDOComponent := { s with lastMillis := currentMillis }
    { s with store_ := { s.store_ with obstructionLowCount := 0 } }
  else s

/-- Embedding of `RATGDOStore::isrObstruction`; `currentMillis` is the value of
`millis()` and `pin` the value of `input_obst.digital_read()`. -/
def isrObstruction (currentMillis : Nat) (pin : Bool) (arg : RATGDOStore) : RATGDOStore :=
  if pin then { arg with lastObstructionHigh := currentMillis }
  else { arg with obstructionLowCount := arg.obstructionLowCount + 1 }

/-! ## Sample values -/

/-- A frame of nineteen zero bytes. -/
def zeroFrame : Frame := ⟨List.replicate 19 0, rfl⟩

/-- A store with every flag false and every number zero. -/
def zeroStore : RATGDOStore :=
  { dryContactDoorOpen := false
    dryContactDoorClose := false
    dryContactToggleLight := false
    obstructionLowCount := 0
    lastObstructionHigh := 0
    obstructionState := 0
    motionState := 0
    lockState := 0
    lightState := 0
    doorState := 0 }

/-- The debouncer state at startup: no event latched, every stored falling-edge
time zero. -/
def initialContactIsr : ContactIsr :=
  { arg := zeroStore
    lastOpenDoorTime := 0
    lastCloseDoorTime := 0
    lastToggleLightTime := 0 }

/-- A component with a zero counter, zeroed buffers, the scanner statics at
their initial values (`reading = false`, `byteCount = 0`, `msgStart = 0`) and
nothing recorded. -/
def zeroComponent : RATGDOComponent :=
  { store_ := zeroStore
    rollingCodeCounter := 0
    txRollingCode := zeroFrame
    rxRollingCode := zeroFrame
    pref_ := none
    msgStart := 0
    reading := false
    byteCount := 0
    lastMillis := 0
    previousDoorState := 0
    previousLightState := 0
    previousLockState := 0
    previousObstructionState := 0
    effects := []
    ingested := []
    children_ := [] }

/-- A codec used to run the embedding on concrete inputs: the encoder ignores
its arguments, the decoder reads `fixed` from the bytes 3 to 7 and `data` from
the bytes 8 to 11 of the packet (big-endian). It is not the wire format. -/
def sampleWireline : Wireline :=
  { encode_wireline := fun _ _ _ packet => packet
    decode_wireline := fun packet =>
      (0,
       (packet.bytes.drop 3).take 5 |>.foldl (fun acc b => acc * 256 + b) 0,
       (packet.bytes.drop 8).take 4 |>.foldl (fun acc b => acc * 256 + b) 0) }

/-- A frame that `sampleWireline` decodes to `fixed = 0x200000000`, `data = 0x81`:
opcode `0x281`. -/
def lightToggleFrame : Frame :=
  ⟨[0x55, 1, 0, 2, 0, 0, 0, 0, 0, 0, 0, 0x81, 0, 0, 0, 0, 0, 0, 0], rfl⟩

/-- The zero component with the door state `door`. -/
def withDoor (door : Nat) : RATGDOComponent :=
  { zeroComponent with store_ := { zeroStore with doorState := door } }

/-- The zero component with two registered observers, 7 and 9, and the motion
state `motion`. -/
def withMotion (motion : Nat) : RATGDOComponent :=
  { zeroComponent with
    store_ := { zeroStore with motionState := motion }
    children_ := [7, 9] }

/-- A frame that `sampleWireline` decodes to `fixed = 0x200000000`, `data = 0x85`:
opcode `0x285`. -/
def motionFrame : Frame :=
  ⟨[0x55, 1, 0, 2, 0, 0, 0, 0, 0, 0, 0, 0x85, 0, 0, 0, 0, 0, 0, 0], rfl⟩

/-- The zero component with `count` low pulses counted, the last high level seen
at `lastHigh` ms, the last evaluation at `lastMillis` ms and the obstruction
state `obstruction`. -/
def withObstruction (count lastHigh lastMillis obstruction : Nat) : RATGDOComponent :=
  { zeroComponent with
    store_ :=
      { zeroStore with
        obstructionLowCount := count
        lastObstructionHigh := lastHigh
        obstructionState := obstruction }
    lastMillis := lastMillis }

/-- A frame that `sampleWireline` decodes to `fixed = 0`, `data = 0x681`: a
status report (opcode `0x081`) whose door nibble is 6. -/
def doorSixFrame : Frame :=
  ⟨[0x55, 1, 0, 0, 0, 0, 0, 0, 0, 0, 0x06, 0x81, 0, 0, 0, 0, 0, 0, 0], rfl⟩

/-- Enumerator values used to run the embedding on concrete inputs. -/
def sampleDeclarations : Declarations :=
  { DOOR_STATE_UNKNOWN := 0
    DOOR_STATE_OPEN := 1
    DOOR_STATE_CLOSED := 2
    DOOR_STATE_STOPPED := 3
    DOOR_STATE_OPENING := 4
    DOOR_STATE_CLOSING := 5
    LIGHT_STATE_OFF := 0
    LIGHT_STATE_ON := 1
    LIGHT_STATE_UNKNOWN := 2
    LOCK_STATE_UNLOCKED := 0
    LOCK_STATE_LOCKED := 1
    LOCK_STATE_UNKNOWN := 2
    MOTION_STATE_CLEAR := 0
    MOTION_STATE_DETECTED := 1
    OBSTRUCTION_STATE_OBSTRUCTED := 0
    OBSTRUCTION_STATE_CLEAR := 1
    OBSTRUCTION_STATE_UNKNOWN := 2
    lastObstructionHighSigned := true }

/-! # Theorems -/

/-! ## Properties of the outbound path -/

theorem mask28 (n : Nat) : n &&& 0xfffffff = n % 2 ^ 28 := by
  have h := Nat.and_pow_two_sub_one_eq_mod n 28
  simpa using h

theorem getRollingCode_counter (w : Wireline) (c : Commands) (s : RATGDOComponent)
    (hv : c.inTable = true) (hd : c ≠ Commands.DOOR1) :
    (getRollingCode w c s).rollingCodeCounter = (s.rollingCodeCounter + 1) % 2 ^ 28 := by
  cases c <;> simp_all [getRollingCode, Commands.inTable, mask28]

theorem getRollingCode_DOOR1_counter (w : Wireline) (s : RATGDOComponent) :
    (getRollingCode w Commands.DOOR1 s).rollingCodeCounter = s.rollingCodeCounter := by
  simp [getRollingCode]

theorem getRollingCodes_counter_aux (w : Wireline) (cmds : List Commands) :
    ∀ s : RATGDOComponent,
      (∀ c ∈ cmds, c.inTable = true ∧ c ≠ Commands.DOOR1) →
      (getRollingCodes w cmds s).rollingCodeCounter =
        if cmds = [] then s.rollingCodeCounter
        else (s.rollingCodeCounter + cmds.length) % 2 ^ 28 := by
  induction cmds with
  | nil => intro s _; simp [getRollingCodes]
  | cons c cs ih =>
    intro s h
    have hc := h c (List.mem_cons_self c cs)
    have hcs : ∀ d ∈ cs, d.inTable = true ∧ d ≠ Commands.DOOR1 :=
      fun d hd => h d (List.mem_cons_of_mem c hd)
    have step := getRollingCode_counter w c s hc.1 hc.2
    have rest := ih (getRollingCode w c s) hcs
    have unfold1 : getRollingCodes w (c :: cs) s = getRollingCodes w cs (getRollingCode w c s) := by
      simp [getRollingCodes]
    rw [unfold1, rest, step]
    by_cases hnil : cs = []
    · subst hnil; simp
    · simp only [hnil, if_false, List.length_cons, reduceCtorEq]
      omega

/-- C1. Starting from a counter `c` and calling `getRollingCode` once for each
command of a list of `N` commands, all of them in the command table and none of
them `DOOR1`, leaves the counter at `(c + N) mod 2^28`; a call with `DOOR1`
leaves the counter unchanged. The counter `c` is a 28-bit value, or at least
one call is made (a counter of 28 bits or more is only reduced by the first
increment). -/
theorem getRollingCode_counter_after_sends (w : Wireline) (s : RATGDOComponent)
    (cmds : List Commands)
    (hcmds : ∀ c ∈ cmds, c.inTable = true ∧ c ≠ Commands.DOOR1)
    (hc : s.rollingCodeCounter < 2 ^ 28 ∨ cmds ≠ []) :
    (getRollingCodes w cmds s).rollingCodeCounter
        = (s.rollingCodeCounter + cmds.length) % 2 ^ 28
      ∧ (getRollingCode w Commands.DOOR1 s).rollingCodeCounter = s.rollingCodeCounter := by
  refine ⟨?_, getRollingCode_DOOR1_counter w s⟩
  rw [getRollingCodes_counter_aux w cmds s hcmds]
  by_cases hnil : cmds = []
  · subst hnil
    rcases hc with hlt | hne
    · simp only [List.length_nil, Nat.add_zero, if_true]
      omega
    · exact absurd rfl hne
  · simp [hnil]

theorem serialWrites_append (a b : List Effect) :
    serialWrites (a ++ b) = serialWrites a ++ serialWrites b := by
  induction a with
  | nil => simp [serialWrites]
  | cons e es ih => cases e <;> simp [serialWrites, ih]

/-- C2. For every counter value `c`, `toggleDoor` writes exactly two packets to
the serial port, both encoded with the counter `c` (the counter is still `c`
after the `DOOR1` transmit), and leaves the counter at `(c + 1) mod 2^28`: one
increment for the pair. -/
theorem toggleDoor_shares_counter (w : Wireline) (s : RATGDOComponent) :
    serialWrites (toggleDoor w s).effects
        = serialWrites s.effects ++
          [w.encode_wireline s.rollingCodeCounter (0x200000000 ||| 0x539) 0x01018280
              s.txRollingCode,
           w.encode_wireline s.rollingCodeCounter (0x200000000 ||| 0x539) 0x01009280
              (w.encode_wireline s.rollingCodeCounter (0x200000000 ||| 0x539) 0x01018280
                s.txRollingCode)]
      ∧ (transmit w Commands.DOOR1 s).rollingCodeCounter = s.rollingCodeCounter
      ∧ (toggleDoor w s).rollingCodeCounter = (s.rollingCodeCounter + 1) % 2 ^ 28 := by
  refine ⟨?_, ?_, ?_⟩
  · simp [toggleDoor, transmit, getRollingCode, RATGDOComponent.emit, serialWrites_append,
      serialWrites]
  · simp [transmit, getRollingCode, RATGDOComponent.emit]
  · simp [toggleDoor, transmit, getRollingCode, RATGDOComponent.emit, mask28]

/-- A run of C1 across the wrap: three sends from the counter `2^28 - 1`. -/
theorem getRollingCode_counter_after_sends_witness :
    (∀ c ∈ [Commands.REBOOT1, Commands.DOOR2, Commands.LIGHT],
        c.inTable = true ∧ c ≠ Commands.DOOR1)
      ∧ (getRollingCodes sampleWireline [Commands.REBOOT1, Commands.DOOR2, Commands.LIGHT]
            { zeroComponent with rollingCodeCounter := 2 ^ 28 - 1 }).rollingCodeCounter = 2
      ∧ (getRollingCode sampleWireline Commands.DOOR1
            { zeroComponent with rollingCodeCounter := 2 ^ 28 - 1 }).rollingCodeCounter
          = 2 ^ 28 - 1 :=
  ⟨by decide,
   getRollingCode_counter_after_sends sampleWireline
     { zeroComponent with rollingCodeCounter := 2 ^ 28 - 1 }
     [Commands.REBOOT1, Commands.DOOR2, Commands.LIGHT] (by decide) (Or.inr (by decide))⟩

/-! ## Properties of the inbound path -/

theorem and_0xf (n : Nat) : n &&& 0xf = n % 16 := by
  have h := Nat.and_pow_two_sub_one_eq_mod n 4
  simpa using h

theorem and_0xff (n : Nat) : n &&& 0xff = n % 256 := by
  have h := Nat.and_pow_two_sub_one_eq_mod n 8
  simpa using h

theorem and_0x1 (n : Nat) : n &&& 1 = n % 2 :=
  Nat.and_one_is_mod n

theorem opcode_lt (fixed data : Nat) : opcode fixed data < 2 ^ 16 := by
  have h1 : (fixed >>> 24) &&& 0xf00 < 2 ^ 16 :=
    Nat.lt_of_le_of_lt Nat.and_le_right (by norm_num)
  have h2 : data &&& 0xff < 2 ^ 16 :=
    Nat.lt_of_le_of_lt Nat.and_le_right (by norm_num)
  exact Nat.or_lt_two_pow h1 h2

/-- The `cmd` computed by `readRollingCode` is the opcode of the decoded fields. -/
theorem readRollingCode_cmd (fixed data : Nat) :
    (((fixed >>> 24) &&& 0xf00) ||| (data &&& 0xff)) % 2 ^ 16 = opcode fixed data :=
  Nat.mod_eq_of_lt (opcode_lt fixed data)

/-- C4. When the decoded fields `(fixed, data)` of the received frame have opcode
`0x081`, `readRollingCode` sets the door state to bits 8..11 of `data`, the light
state to bit 25 of `data`, the lock state to bit 24 of `data` and the motion
state to 0, whatever the state was before. -/
theorem readRollingCode_status_report (w : Wireline) (rx : Frame) (st : RATGDOStore)
    (rolling fixed data : Nat)
    (hdec : w.decode_wireline rx = (rolling, fixed, data))
    (hfixed : fixed < 2 ^ 64) (hdata : data < 2 ^ 32)
    (hop : opcode fixed data = 0x081) :
    (readRollingCode w rx st).doorState = data / 2 ^ 8 % 16
      ∧ (readRollingCode w rx st).lightState = data / 2 ^ 25 % 2
      ∧ (readRollingCode w rx st).lockState = data / 2 ^ 24 % 2
      ∧ (readRollingCode w rx st).motionState = 0 := by
  have hcmd := readRollingCode_cmd fixed data
  rw [hop] at hcmd
  unfold readRollingCode
  simp only [hdec, Nat.mod_eq_of_lt hfixed, Nat.mod_eq_of_lt hdata, hcmd, if_true]
  simp only [and_0xf, and_0xff, and_0x1, Nat.shiftRight_eq_div_pow]
  refine ⟨?_, ?_, ?_, trivial⟩ <;> omega

/-- A run of C4: a status report with door nibble 5, light bit 1, lock bit 1,
received while motion is set. -/
theorem readRollingCode_status_report_witness :
    sampleWireline.decode_wireline
        ⟨[0x55, 1, 0, 0, 0, 0, 0, 0, 0x03, 0, 0x05, 0x81, 0, 0, 0, 0, 0, 0, 0], rfl⟩
        = (0, 0, 0x03000581)
      ∧ opcode 0 0x03000581 = 0x081
      ∧ ((readRollingCode sampleWireline
            ⟨[0x55, 1, 0, 0, 0, 0, 0, 0, 0x03, 0, 0x05, 0x81, 0, 0, 0, 0, 0, 0, 0], rfl⟩
            { zeroStore with motionState := 1 }).doorState = 0x03000581 / 2 ^ 8 % 16
        ∧ (readRollingCode sampleWireline
            ⟨[0x55, 1, 0, 0, 0, 0, 0, 0, 0x03, 0, 0x05, 0x81, 0, 0, 0, 0, 0, 0, 0], rfl⟩
            { zeroStore with motionState := 1 }).lightState = 0x03000581 / 2 ^ 25 % 2
        ∧ (readRollingCode sampleWireline
            ⟨[0x55, 1, 0, 0, 0, 0, 0, 0, 0x03, 0, 0x05, 0x81, 0, 0, 0, 0, 0, 0, 0], rfl⟩
            { zeroStore with motionState := 1 }).lockState = 0x03000581 / 2 ^ 24 % 2
        ∧ (readRollingCode sampleWireline
            ⟨[0x55, 1, 0, 0, 0, 0, 0, 0, 0x03, 0, 0x05, 0x81, 0, 0, 0, 0, 0, 0, 0], rfl⟩
            { zeroStore with motionState := 1 }).motionState = 0) :=
  ⟨by decide, by decide,
   readRollingCode_status_report sampleWireline
     ⟨[0x55, 1, 0, 0, 0, 0, 0, 0, 0x03, 0, 0x05, 0x81, 0, 0, 0, 0, 0, 0, 0], rfl⟩
     { zeroStore with motionState := 1 } 0 0 0x03000581
     (by decide) (by decide) (by decide) (by decide)⟩

/-- The door state after `readRollingCode`, by the opcode of the decoded fields:
the door nibble of `data` on a status report, the previous door state on every
other opcode. -/
theorem readRollingCode_doorState (w : Wireline) (rx : Frame) (st : RATGDOStore)
    (rolling fixed data : Nat)
    (hdec : w.decode_wireline rx = (rolling, fixed, data))
    (hfixed : fixed < 2 ^ 64) (hdata : data < 2 ^ 32) :
    (readRollingCode w rx st).doorState
      = if opcode fixed data = 0x081 then data / 2 ^ 8 % 16 else st.doorState := by
  have hcmd := readRollingCode_cmd fixed data
  unfold readRollingCode
  simp only [hdec, Nat.mod_eq_of_lt hfixed, Nat.mod_eq_of_lt hdata, hcmd]
  by_cases h081 : opcode fixed data = 0x081
  · simp only [h081, if_true]
    simp only [and_0xf, Nat.shiftRight_eq_div_pow]
    omega
  · simp only [h081, if_false]
    split_ifs <;> rfl

/-- C5. When the opcode of the decoded fields is none of `0x081`, `0x281`,
`0x285` (the idle opcode `0x084` included), `readRollingCode` leaves the store,
and so the door, light, lock, motion and obstruction states, unchanged. The door
state changes only on a `0x081` status report: on every other opcode, `0x281`
and `0x285` included, the door state is the same after as before, so a door
state that differs from the previous one comes from opcode `0x081`. -/
theorem readRollingCode_other_opcode (w : Wireline) (rx : Frame) (st : RATGDOStore)
    (rolling fixed data : Nat)
    (hdec : w.decode_wireline rx = (rolling, fixed, data))
    (hfixed : fixed < 2 ^ 64) (hdata : data < 2 ^ 32) :
    (opcode fixed data ≠ 0x081 → opcode fixed data ≠ 0x281 → opcode fixed data ≠ 0x285 →
        readRollingCode w rx st = st)
      ∧ (opcode fixed data ≠ 0x081 → (readRollingCode w rx st).doorState = st.doorState)
      ∧ ((readRollingCode w rx st).doorState ≠ st.doorState → opcode fixed data = 0x081) := by
  have hdoor := readRollingCode_doorState w rx st rolling fixed data hdec hfixed hdata
  refine ⟨?_, ?_, ?_⟩
  · intro h081 h281 h285
    have hcmd := readRollingCode_cmd fixed data
    unfold readRollingCode
    simp only [hdec, Nat.mod_eq_of_lt hfixed, Nat.mod_eq_of_lt hdata, hcmd]
    simp [h081, h281, h285]
  · intro h081
    rw [hdoor, if_neg h081]
  · intro hchanged
    by_contra h081
    rw [hdoor, if_neg h081] at hchanged
    exact hchanged rfl

/-- A run of C5 from a store with door state 2 and motion set: the idle opcode
`0x084` leaves the store unchanged, and the motion opcode `0x285` leaves the
door state at 2. -/
theorem readRollingCode_other_opcode_witness :
    sampleWireline.decode_wireline
        ⟨[0x55, 1, 0, 0, 0, 0, 0, 0, 0x03, 0, 0x05, 0x84, 0, 0, 0, 0, 0, 0, 0], rfl⟩
        = (0, 0, 0x03000584)
      ∧ opcode 0 0x03000584 = 0x084
      ∧ readRollingCode sampleWireline
          ⟨[0x55, 1, 0, 0, 0, 0, 0, 0, 0x03, 0, 0x05, 0x84, 0, 0, 0, 0, 0, 0, 0], rfl⟩
          { zeroStore with motionState := 1, doorState := 2 }
        = { zeroStore with motionState := 1, doorState := 2 }
      ∧ sampleWireline.decode_wireline motionFrame = (0, 0x200000000, 0x85)
      ∧ opcode 0x200000000 0x85 = 0x285
      ∧ (readRollingCode sampleWireline motionFrame
          { zeroStore with doorState := 2 }).doorState = 2 :=
  ⟨by decide, by decide,
   (readRollingCode_other_opcode sampleWireline
     ⟨[0x55, 1, 0, 0, 0, 0, 0, 0, 0x03, 0, 0x05, 0x84, 0, 0, 0, 0, 0, 0, 0], rfl⟩
     { zeroStore with motionState := 1, doorState := 2 } 0 0 0x03000584
     (by decide) (by decide) (by decide)).1 (by decide) (by decide) (by decide),
   by decide, by decide,
   (readRollingCode_other_opcode sampleWireline motionFrame
     { zeroStore with doorState := 2 } 0 0x200000000 0x85
     (by decide) (by decide) (by decide)).2.1 (by decide)⟩

theorem xor_one_lt (l : Nat) (hl : l < 2 ^ 8) : (l ^^^ 1) % 2 ^ 8 = l ^^^ 1 :=
  Nat.mod_eq_of_lt (Nat.xor_lt_two_pow hl (by norm_num))

theorem xor_one_xor_one (l : Nat) : (l ^^^ 1) ^^^ 1 = l := by
  rw [Nat.xor_assoc, Nat.xor_self, Nat.xor_zero]

/-- C6. When the opcode of the decoded fields is `0x281`, `readRollingCode`
replaces the light state by its exclusive-or with 1 and changes no other field
of the store; two such frames in a row restore the store, and with it the
original light state. The light state is a byte. -/
theorem readRollingCode_light_toggle (w : Wireline) (rx rx2 : Frame) (st : RATGDOStore)
    (rolling fixed data rolling2 fixed2 data2 : Nat)
    (hdec : w.decode_wireline rx = (rolling, fixed, data))
    (hfixed : fixed < 2 ^ 64) (hdata : data < 2 ^ 32)
    (hop : opcode fixed data = 0x281)
    (hdec2 : w.decode_wireline rx2 = (rolling2, fixed2, data2))
    (hfixed2 : fixed2 < 2 ^ 64) (hdata2 : data2 < 2 ^ 32)
    (hop2 : opcode fixed2 data2 = 0x281)
    (hlight : st.lightState < 2 ^ 8) :
    readRollingCode w rx st = { st with lightState := st.lightState ^^^ 1 }
      ∧ readRollingCode w rx2 (readRollingCode w rx st) = st := by
  have hcmd := readRollingCode_cmd fixed data
  have hcmd2 := readRollingCode_cmd fixed2 data2
  rw [hop] at hcmd
  rw [hop2] at hcmd2
  have first : readRollingCode w rx st = { st with lightState := st.lightState ^^^ 1 } := by
    unfold readRollingCode
    simp only [hdec, Nat.mod_eq_of_lt hfixed, Nat.mod_eq_of_lt hdata, hcmd,
      xor_one_lt _ hlight]
    rfl
  refine ⟨first, ?_⟩
  rw [first]
  unfold readRollingCode
  have hl2 : (st.lightState ^^^ 1) < 2 ^ 8 := Nat.xor_lt_two_pow hlight (by norm_num)
  simp only [hdec2, Nat.mod_eq_of_lt hfixed2, Nat.mod_eq_of_lt hdata2, hcmd2,
    xor_one_lt _ hl2, xor_one_xor_one, Nat.mod_eq_of_lt hlight]
  rfl

/-- A run of C6 from the light state 1: one frame gives 0, a second gives 1 again. -/
theorem readRollingCode_light_toggle_witness :
    sampleWireline.decode_wireline lightToggleFrame = (0, 0x200000000, 0x81)
      ∧ opcode 0x200000000 0x81 = 0x281
      ∧ (readRollingCode sampleWireline lightToggleFrame { zeroStore with lightState := 1 }
          = { { zeroStore with lightState := 1 } with lightState := 1 ^^^ 1 }
        ∧ readRollingCode sampleWireline lightToggleFrame
            (readRollingCode sampleWireline lightToggleFrame { zeroStore with lightState := 1 })
          = { zeroStore with lightState := 1 }) :=
  ⟨by decide, by decide,
   readRollingCode_light_toggle sampleWireline lightToggleFrame lightToggleFrame
     { zeroStore with lightState := 1 } 0 0x200000000 0x81 0 0x200000000 0x81
     (by decide) (by decide) (by decide) (by decide)
     (by decide) (by decide) (by decide) (by decide) (by decide)⟩

/-! ## Properties of the frame scanner -/

theorem scanning_self (s : RATGDOComponent) (hscan : s.reading = false) :
    scanning s s.msgStart = s := by
  cases s
  simp only [scanning] at *
  simp [hscan]

theorem gdoStateLoop_capture (w : Wireline) (s : RATGDOComponent) (n b : Nat) (rx : Frame)
    (hn : n < 18) :
    gdoStateLoop w (some b) (capturing s n rx) = capturing s (n + 1) (rx.write n (b % 2 ^ 8)) := by
  have h1 : (n + 1) % 2 ^ 16 = n + 1 := Nat.mod_eq_of_lt (by omega)
  have h2 : ¬ (n + 1 = 19) := by omega
  simp only [gdoStateLoop, capturing, h1, h2, if_false, if_true, Bool.true_eq_false,
    Bool.false_eq_true]

theorem gdoStateLoop_complete (w : Wireline) (s : RATGDOComponent) (b : Nat) (rx : Frame) :
    gdoStateLoop w (some b) (capturing s 18 rx) = emitted w s (rx.write 18 (b % 2 ^ 8)) := by
  simp [gdoStateLoop, capturing, emitted]

theorem gdoStateLoop_miss (w : Wireline) (s : RATGDOComponent) (m b : Nat)
    (hne : shiftIn m b ≠ 0x550100) :
    gdoStateLoop w (some b) (scanning s m) = scanning s (shiftIn m b) := by
  unfold shiftIn at hne
  simp only [gdoStateLoop, scanning, shiftIn, hne, if_false, if_true, Bool.false_eq_true]

theorem gdoStateLoop_hit (w : Wireline) (s : RATGDOComponent) (m b : Nat)
    (heq : shiftIn m b = 0x550100) :
    gdoStateLoop w (some b) (scanning s m)
      = capturing s 3 (((s.rxRollingCode.write 0 0x55).write 1 0x01).write 2 0x00) := by
  unfold shiftIn at heq
  simp only [gdoStateLoop, capturing, scanning, heq, if_false, if_true, Bool.false_eq_true]

theorem feed_cons (w : Wireline) (b : Nat) (bs : List Nat) (s : RATGDOComponent) :
    feed w (b :: bs) s = feed w bs (gdoStateLoop w (some b) s) := rfl

theorem feed_nil (w : Wireline) (s : RATGDOComponent) : feed w [] s = s := rfl

theorem feed_append (w : Wireline) (as bs : List Nat) (s : RATGDOComponent) :
    feed w (as ++ bs) s = feed w bs (feed w as s) := by
  simp [feed, List.foldl_append]

/-- One call of `gdoStateLoop` keeps every frame handed over so far. -/
theorem gdoStateLoop_ingested_grows (w : Wireline) (input : Option Nat) (s : RATGDOComponent) :
    ∃ extra, (gdoStateLoop w input s).ingested = s.ingested ++ extra := by
  cases input with
  | none => exact ⟨[], by simp [gdoStateLoop]⟩
  | some b =>
    simp only [gdoStateLoop]
    split_ifs <;> first
      | exact ⟨[_], rfl⟩
      | exact ⟨[], (List.append_nil _).symm⟩

theorem feed_ingested_grows (w : Wireline) (bs : List Nat) :
    ∀ s : RATGDOComponent, ∃ extra, (feed w bs s).ingested = s.ingested ++ extra := by
  induction bs with
  | nil => intro s; exact ⟨[], by simp [feed]⟩
  | cons b bs ih =>
    intro s
    obtain ⟨e1, h1⟩ := gdoStateLoop_ingested_grows w (some b) s
    obtain ⟨e2, h2⟩ := ih (gdoStateLoop w (some b) s)
    exact ⟨e1 ++ e2, by rw [feed_cons, h2, h1, List.append_assoc]⟩

/-- If nothing has been handed over after the whole of `bs`, nothing had been
handed over after any prefix of `bs`. -/
theorem feed_take_ingested (w : Wireline) (bs : List Nat) (s : RATGDOComponent) (k : Nat)
    (h : (feed w bs s).ingested = s.ingested) :
    (feed w (bs.take k) s).ingested = s.ingested := by
  obtain ⟨e1, h1⟩ := feed_ingested_grows w (bs.take k) s
  obtain ⟨e2, h2⟩ := feed_ingested_grows w (bs.drop k) (feed w (bs.take k) s)
  rw [← feed_append, List.take_append_drop, h, h1, List.append_assoc] at h2
  have hnil : e1 ++ e2 = [] := by
    have := congrArg List.length h2
    simp only [List.length_append] at this
    exact List.eq_nil_of_length_eq_zero (by simp only [List.length_append]; omega)
  rw [h1, (List.append_eq_nil.mp hnil).1, List.append_nil]

theorem feed_capturing (w : Wireline) (s : RATGDOComponent) (bs : List Nat) :
    ∀ (n : Nat) (rx : Frame), n + bs.length ≤ 18 →
      feed w bs (capturing s n rx) = capturing s (n + bs.length) (fill rx n bs) := by
  induction bs with
  | nil => intro n rx _; simp [feed, fill]
  | cons b bs ih =>
    intro n rx h
    simp only [List.length_cons] at h
    rw [feed_cons, gdoStateLoop_capture w s n b rx (by omega), ih (n + 1) _ (by omega)]
    simp only [List.length_cons, fill]
    congr 1
    omega

/-- The shift register keeps the last three bytes: shifting `b` in gives the low
two bytes of the register followed by `b`. -/
theorem shiftIn_eq (m b : Nat) : shiftIn m b = (m % 2 ^ 16) * 256 + b % 256 := by
  unfold shiftIn
  have h24 := Nat.and_pow_two_sub_one_eq_mod ((m <<< 8) % 2 ^ 32 ||| b % 2 ^ 8) 24
  have hmask : (2 : Nat) ^ 24 - 1 = 0x00FFFFFF := by norm_num
  rw [hmask] at h24
  rw [h24, Nat.shiftLeft_eq]
  have hx : m * 2 ^ 8 % 2 ^ 32 = 2 ^ 8 * (m % 2 ^ 24) := by omega
  have hb : b % 2 ^ 8 < 2 ^ 8 := Nat.mod_lt _ (by norm_num)
  rw [hx, ← Nat.mul_add_lt_is_or hb]
  omega

/-- Whatever the shift register holds, the bytes `0x55, 0x01, 0x00` match the
preamble on the third byte and not before. -/
theorem shiftIn_preamble (m : Nat) :
    shiftIn m 0x55 ≠ 0x550100
      ∧ shiftIn (shiftIn m 0x55) 0x01 ≠ 0x550100
      ∧ shiftIn (shiftIn (shiftIn m 0x55) 0x01) 0x00 = 0x550100 := by
  simp only [shiftIn_eq]
  omega

/-- From the scanning state, the preamble followed by `bs` (at most fifteen
bytes) leaves the scanner capturing, with nothing handed over. -/
theorem feed_preamble_then (w : Wireline) (s : RATGDOComponent) (m : Nat) (bs : List Nat)
    (h : bs.length ≤ 15) :
    feed w ([0x55, 0x01, 0x00] ++ bs) (scanning s m)
      = capturing s (3 + bs.length)
          (fill (((s.rxRollingCode.write 0 0x55).write 1 0x01).write 2 0x00) 3 bs) := by
  obtain ⟨h1, h2, h3⟩ := shiftIn_preamble m
  rw [feed_append, feed_cons, gdoStateLoop_miss w s m 0x55 h1]
  rw [feed_cons, gdoStateLoop_miss w s _ 0x01 h2]
  rw [feed_cons, gdoStateLoop_hit w s _ 0x00 h3, feed_nil]
  exact feed_capturing w s bs 3 _ (by omega)

theorem bytes19 (l : List Nat) (h : l.length = 19) :
    ∃ a0 a1 a2 a3 a4 a5 a6 a7 a8 a9 a10 a11 a12 a13 a14 a15 a16 a17 a18,
      l = [a0, a1, a2, a3, a4, a5, a6, a7, a8, a9, a10, a11, a12, a13, a14, a15, a16, a17,
        a18] := by
  match l, h with
  | [a0, a1, a2, a3, a4, a5, a6, a7, a8, a9, a10, a11, a12, a13, a14, a15, a16, a17, a18], _ =>
    exact ⟨a0, a1, a2, a3, a4, a5, a6, a7, a8, a9, a10, a11, a12, a13, a14, a15, a16, a17, a18,
      rfl⟩

theorem bytes16 (l : List Nat) (h : l.length = 16) :
    ∃ a0 a1 a2 a3 a4 a5 a6 a7 a8 a9 a10 a11 a12 a13 a14 a15,
      l = [a0, a1, a2, a3, a4, a5, a6, a7, a8, a9, a10, a11, a12, a13, a14, a15] := by
  match l, h with
  | [a0, a1, a2, a3, a4, a5, a6, a7, a8, a9, a10, a11, a12, a13, a14, a15], _ =>
    exact ⟨a0, a1, a2, a3, a4, a5, a6, a7, a8, a9, a10, a11, a12, a13, a14, a15, rfl⟩

/-- The receive buffer after the preamble and sixteen payload bytes have been
stored holds exactly those nineteen bytes, whatever it held before. -/
theorem fill_bytes (rx : Frame) (payload : List Nat) (hlen : payload.length = 16)
    (hbytes : ∀ b ∈ payload, b < 256) :
    (fill (((rx.write 0 0x55).write 1 0x01).write 2 0x00) 3 payload).bytes
      = [0x55, 0x01, 0x00] ++ payload := by
  obtain ⟨bytes, size⟩ := rx
  obtain ⟨a0, a1, a2, a3, a4, a5, a6, a7, a8, a9, a10, a11, a12, a13, a14, a15, a16, a17, a18,
    rfl⟩ := bytes19 bytes size
  obtain ⟨b3, b4, b5, b6, b7, b8, b9, b10, b11, b12, b13, b14, b15, b16, b17, b18, rfl⟩ :=
    bytes16 payload hlen
  simp only [List.mem_cons, List.mem_singleton, forall_eq_or_imp, forall_eq, List.not_mem_nil,
    false_imp_iff, implies_true, and_true] at hbytes
  obtain ⟨h3, h4, h5, h6, h7, h8, h9, h10, h11, h12, h13, h14, h15, h16, h17, h18⟩ := hbytes
  simp only [fill, Frame.write, List.set_cons_zero, List.set_cons_succ,
    Nat.mod_eq_of_lt (show b3 < 2 ^ 8 from h3), Nat.mod_eq_of_lt (show b4 < 2 ^ 8 from h4),
    Nat.mod_eq_of_lt (show b5 < 2 ^ 8 from h5), Nat.mod_eq_of_lt (show b6 < 2 ^ 8 from h6),
    Nat.mod_eq_of_lt (show b7 < 2 ^ 8 from h7), Nat.mod_eq_of_lt (show b8 < 2 ^ 8 from h8),
    Nat.mod_eq_of_lt (show b9 < 2 ^ 8 from h9), Nat.mod_eq_of_lt (show b10 < 2 ^ 8 from h10),
    Nat.mod_eq_of_lt (show b11 < 2 ^ 8 from h11), Nat.mod_eq_of_lt (show b12 < 2 ^ 8 from h12),
    Nat.mod_eq_of_lt (show b13 < 2 ^ 8 from h13), Nat.mod_eq_of_lt (show b14 < 2 ^ 8 from h14),
    Nat.mod_eq_of_lt (show b15 < 2 ^ 8 from h15), Nat.mod_eq_of_lt (show b16 < 2 ^ 8 from h16),
    Nat.mod_eq_of_lt (show b17 < 2 ^ 8 from h17), Nat.mod_eq_of_lt (show b18 < 2 ^ 8 from h18)]
  rfl

theorem fill_append (as bs : List Nat) :
    ∀ (n : Nat) (rx : Frame), fill rx n (as ++ bs) = fill (fill rx n as) (n + as.length) bs := by
  induction as with
  | nil => intro n rx; simp [fill]
  | cons a as ih =>
    intro n rx
    have step := ih (n + 1) (rx.write n (a % 2 ^ 8))
    rw [List.cons_append]
    simp only [fill, List.length_cons]
    rw [show n + (as.length + 1) = n + 1 + as.length by omega]
    exact step

/-- From the scanning state, the preamble followed by sixteen bytes completes a
frame on the last byte. -/
theorem feed_preamble_complete (w : Wireline) (s : RATGDOComponent) (m : Nat) (bs : List Nat)
    (b : Nat) (h : bs.length = 15) :
    feed w ([0x55, 0x01, 0x00] ++ (bs ++ [b])) (scanning s m)
      = emitted w s
          (fill (((s.rxRollingCode.write 0 0x55).write 1 0x01).write 2 0x00) 3 (bs ++ [b])) := by
  rw [← List.append_assoc, feed_append, feed_preamble_then w s m bs (by omega), h, feed_cons,
    feed_nil, gdoStateLoop_complete, fill_append, h]
  rfl

/-- C7. From the scanning state with an empty shift register, feeding the 19
bytes `0x55, 0x01, 0x00, payload` (16 payload bytes) one at a time to
`gdoStateLoop` hands exactly one frame to `readRollingCode`; the frame is the 19
input bytes and the store is updated from it; nothing is handed over after any
of the first 18 bytes, so the frame is emitted on the 19th; afterwards the
scanner is scanning again with shift register and byte count 0. -/
theorem gdoStateLoop_assembles_frame (w : Wireline) (s : RATGDOComponent) (payload : List Nat)
    (hscan : s.reading = false) (hreg : s.msgStart = 0)
    (hlen : payload.length = 16) (hbytes : ∀ b ∈ payload, b < 256) :
    (∃ frame : Frame, frame.bytes = [0x55, 0x01, 0x00] ++ payload
        ∧ (feed w ([0x55, 0x01, 0x00] ++ payload) s).ingested = s.ingested ++ [frame]
        ∧ (feed w ([0x55, 0x01, 0x00] ++ payload) s).store_ = readRollingCode w frame s.store_)
      ∧ (∀ k, k ≤ 18 →
          (feed w (([0x55, 0x01, 0x00] ++ payload).take k) s).ingested = s.ingested)
      ∧ (feed w ([0x55, 0x01, 0x00] ++ payload) s).reading = false
      ∧ (feed w ([0x55, 0x01, 0x00] ++ payload) s).msgStart = 0
      ∧ (feed w ([0x55, 0x01, 0x00] ++ payload) s).byteCount = 0 := by
  have hs : scanning s 0 = s := by
    have := scanning_self s hscan
    rwa [hreg] at this
  have hsplit : payload = payload.take 15 ++ [payload.getLast (by
      intro hnil; rw [hnil] at hlen; simp at hlen)] := by
    obtain ⟨b3, b4, b5, b6, b7, b8, b9, b10, b11, b12, b13, b14, b15, b16, b17, b18, rfl⟩ :=
      bytes16 payload hlen
    rfl
  have htake : (payload.take 15).length = 15 := by
    rw [List.length_take, hlen]; rfl
  have hrun := feed_preamble_complete w s 0 (payload.take 15)
    (payload.getLast (by intro hnil; rw [hnil] at hlen; simp at hlen)) htake
  rw [← hsplit, hs] at hrun
  have h18 : (feed w (([0x55, 0x01, 0x00] ++ payload).take 18) s).ingested = s.ingested := by
    have hpre : ([0x55, 0x01, 0x00] ++ payload).take 18 = [0x55, 0x01, 0x00] ++ payload.take 15 := by
      obtain ⟨b3, b4, b5, b6, b7, b8, b9, b10, b11, b12, b13, b14, b15, b16, b17, b18, rfl⟩ :=
        bytes16 payload hlen
      rfl
    have := feed_preamble_then w s 0 (payload.take 15) (by omega)
    rw [hs] at this
    rw [hpre, this]
    rfl
  refine ⟨⟨_, fill_bytes s.rxRollingCode payload hlen hbytes, ?_, ?_⟩, ?_, ?_, ?_, ?_⟩
  · rw [hrun]; rfl
  · rw [hrun]; rfl
  · intro k hk
    have := feed_take_ingested w (([0x55, 0x01, 0x00] ++ payload).take 18) s k h18
    rwa [List.take_take, Nat.min_eq_left hk] at this
  · rw [hrun]; rfl
  · rw [hrun]; rfl
  · rw [hrun]; rfl

/-- A run of C7 from the zero component on the payload `1, 2, ..., 16`. -/
theorem gdoStateLoop_assembles_frame_witness :
    (∃ frame : Frame,
        frame.bytes = [0x55, 0x01, 0x00] ++ [1, 2, 3, 4, 5, 6, 7, 8, 9, 10, 11, 12, 13, 14, 15, 16]
        ∧ (feed sampleWireline
            ([0x55, 0x01, 0x00] ++ [1, 2, 3, 4, 5, 6, 7, 8, 9, 10, 11, 12, 13, 14, 15, 16])
            zeroComponent).ingested = zeroComponent.ingested ++ [frame]
        ∧ (feed sampleWireline
            ([0x55, 0x01, 0x00] ++ [1, 2, 3, 4, 5, 6, 7, 8, 9, 10, 11, 12, 13, 14, 15, 16])
            zeroComponent).store_ = readRollingCode sampleWireline frame zeroComponent.store_)
      ∧ (∀ k, k ≤ 18 →
          (feed sampleWireline
            (([0x55, 0x01, 0x00]
              ++ [1, 2, 3, 4, 5, 6, 7, 8, 9, 10, 11, 12, 13, 14, 15, 16]).take k)
            zeroComponent).ingested = zeroComponent.ingested)
      ∧ (feed sampleWireline
          ([0x55, 0x01, 0x00] ++ [1, 2, 3, 4, 5, 6, 7, 8, 9, 10, 11, 12, 13, 14, 15, 16])
          zeroComponent).reading = false
      ∧ (feed sampleWireline
          ([0x55, 0x01, 0x00] ++ [1, 2, 3, 4, 5, 6, 7, 8, 9, 10, 11, 12, 13, 14, 15, 16])
          zeroComponent).msgStart = 0
      ∧ (feed sampleWireline
          ([0x55, 0x01, 0x00] ++ [1, 2, 3, 4, 5, 6, 7, 8, 9, 10, 11, 12, 13, 14, 15, 16])
          zeroComponent).byteCount = 0 :=
  gdoStateLoop_assembles_frame sampleWireline zeroComponent
    [1, 2, 3, 4, 5, 6, 7, 8, 9, 10, 11, 12, 13, 14, 15, 16] rfl rfl rfl (by decide)

theorem gdoStateLoop_quiet (w : Wireline) (s : RATGDOComponent) (b n : Nat)
    (h : quietFor s (n + 1)) :
    (gdoStateLoop w (some b) s).ingested = s.ingested
      ∧ quietFor (gdoStateLoop w (some b) s) n := by
  rcases h with ⟨hr, hn⟩ | ⟨hr, hn⟩
  · have hs := scanning_self s hr
    rw [← hs]
    by_cases hm : shiftIn s.msgStart b = 0x550100
    · rw [gdoStateLoop_hit w s _ b hm]
      refine ⟨rfl, Or.inr ⟨rfl, ?_⟩⟩
      show 3 + n ≤ 18
      omega
    · rw [gdoStateLoop_miss w s _ b hm]
      exact ⟨rfl, Or.inl ⟨rfl, by omega⟩⟩
  · have h1 : (s.byteCount + 1) % 2 ^ 16 = s.byteCount + 1 := Nat.mod_eq_of_lt (by omega)
    have h2 : ¬ (s.byteCount + 1 = 19) := by omega
    simp only [gdoStateLoop, hr, h1, h2, if_false, if_true, Bool.true_eq_false,
      Bool.false_eq_true, quietFor, true_and, false_and, false_or]
    omega

theorem feed_quiet (w : Wireline) (bs : List Nat) :
    ∀ s : RATGDOComponent, quietFor s bs.length → (feed w bs s).ingested = s.ingested := by
  induction bs with
  | nil => intro s _; rfl
  | cons b bs ih =>
    intro s h
    obtain ⟨h1, h2⟩ := gdoStateLoop_quiet w s b bs.length h
    rw [feed_cons, ih _ h2, h1]

/-- The input of C8 with sixteen further bytes `1 .. 16`: no frame is handed to
`readRollingCode`, so it is not the case that exactly one is. -/
theorem gdoStateLoop_noise_no_frame :
    ¬ ∃ frame : Frame,
        (feed sampleWireline
          ([0x01, 0x55, 0x00, 0x01, 0x00]
            ++ [1, 2, 3, 4, 5, 6, 7, 8, 9, 10, 11, 12, 13, 14, 15, 16])
          zeroComponent).ingested = [frame] := by
  have h : (feed sampleWireline
      ([0x01, 0x55, 0x00, 0x01, 0x00] ++ [1, 2, 3, 4, 5, 6, 7, 8, 9, 10, 11, 12, 13, 14, 15, 16])
      zeroComponent).ingested = [] := by decide
  rw [h]
  simp

/-- C8, amended. From the scanning state with an empty shift register: the input
`0x01, 0x55, 0x00, 0x01, 0x00` followed by any 16 bytes hands no frame to
`readRollingCode` (the preamble `0x55, 0x01, 0x00` does not occur in the five
leading bytes, and a preamble inside the 16 further bytes leaves too few bytes
to complete a frame); the input `0x01, 0x55, 0x01, 0x00` followed by 16 payload
bytes, a noise byte and then an intact preamble, hands over exactly one frame,
made of the preamble and the payload, that is the input from offset 1 on. -/
theorem gdoStateLoop_resync (w : Wireline) (s : RATGDOComponent) (rest payload : List Nat)
    (hscan : s.reading = false) (hreg : s.msgStart = 0)
    (hrest : rest.length = 16)
    (hlen : payload.length = 16) (hbytes : ∀ b ∈ payload, b < 256) :
    (feed w ([0x01, 0x55, 0x00, 0x01, 0x00] ++ rest) s).ingested = s.ingested
      ∧ ∃ frame : Frame, frame.bytes = [0x55, 0x01, 0x00] ++ payload
          ∧ frame.bytes = ([0x01, 0x55, 0x01, 0x00] ++ payload).drop 1
          ∧ (feed w ([0x01, 0x55, 0x01, 0x00] ++ payload) s).ingested = s.ingested ++ [frame] := by
  have hs : scanning s 0 = s := by
    have := scanning_self s hscan
    rwa [hreg] at this
  constructor
  · rw [feed_append, ← hs, feed_cons, gdoStateLoop_miss w s 0 0x01 (by decide)]
    rw [feed_cons, gdoStateLoop_miss w s _ 0x55 (by decide)]
    rw [feed_cons, gdoStateLoop_miss w s _ 0x00 (by decide)]
    rw [feed_cons, gdoStateLoop_miss w s _ 0x01 (by decide)]
    rw [feed_cons, gdoStateLoop_miss w s _ 0x00 (by decide), feed_nil]
    rw [feed_quiet w rest _ (Or.inl ⟨rfl, by omega⟩)]
    rfl
  · have hsplit : payload = payload.take 15 ++ [payload.getLast (by
        intro hnil; rw [hnil] at hlen; simp at hlen)] := by
      obtain ⟨b3, b4, b5, b6, b7, b8, b9, b10, b11, b12, b13, b14, b15, b16, b17, b18, rfl⟩ :=
        bytes16 payload hlen
      rfl
    have htake : (payload.take 15).length = 15 := by
      rw [List.length_take, hlen]; rfl
    have hrun := feed_preamble_complete w s (shiftIn 0 0x01) (payload.take 15)
      (payload.getLast (by intro hnil; rw [hnil] at hlen; simp at hlen)) htake
    rw [← hsplit] at hrun
    refine ⟨_, fill_bytes s.rxRollingCode payload hlen hbytes, ?_, ?_⟩
    · rw [fill_bytes s.rxRollingCode payload hlen hbytes]
      rfl
    · have hcons : [0x01, 0x55, 0x01, 0x00] ++ payload = 0x01 :: ([0x55, 0x01, 0x00] ++ payload) :=
        rfl
      rw [hcons, feed_cons, ← hs, gdoStateLoop_miss w s 0 0x01 (by decide), hrun]
      rfl

/-- A run of the amended C8 from the zero component. -/
theorem gdoStateLoop_resync_witness :
    (feed sampleWireline
        ([0x01, 0x55, 0x00, 0x01, 0x00]
          ++ [0x55, 0x01, 0x00, 4, 5, 6, 7, 8, 9, 10, 11, 12, 13, 14, 15, 16])
        zeroComponent).ingested = zeroComponent.ingested
      ∧ ∃ frame : Frame,
          frame.bytes
              = [0x55, 0x01, 0x00] ++ [1, 2, 3, 4, 5, 6, 7, 8, 9, 10, 11, 12, 13, 14, 15, 16]
          ∧ frame.bytes
              = ([0x01, 0x55, 0x01, 0x00]
                  ++ [1, 2, 3, 4, 5, 6, 7, 8, 9, 10, 11, 12, 13, 14, 15, 16]).drop 1
          ∧ (feed sampleWireline
              ([0x01, 0x55, 0x01, 0x00] ++ [1, 2, 3, 4, 5, 6, 7, 8, 9, 10, 11, 12, 13, 14, 15, 16])
              zeroComponent).ingested = zeroComponent.ingested ++ [frame] :=
  gdoStateLoop_resync sampleWireline zeroComponent
    [0x55, 0x01, 0x00, 4, 5, 6, 7, 8, 9, 10, 11, 12, 13, 14, 15, 16]
    [1, 2, 3, 4, 5, 6, 7, 8, 9, 10, 11, 12, 13, 14, 15, 16] rfl rfl rfl rfl (by decide)

/-! ## Properties of the dry-contact interrupt handlers -/

theorem sub32_eq (a b : Nat) (hba : b ≤ a) (ha : a < 2 ^ 32) : sub32 a b = a - b := by
  unfold sub32
  omega

theorem isrDoorOpen_fall_rise (c : ContactIsr) (t0 t1 : Nat)
    (hstart : 2000 ≤ t0) (horder : t0 ≤ t1) (hclock : t1 < 2 ^ 32) :
    (isrDoorOpen t1 true (isrDoorOpen t0 false c)).arg
      = (if 500 < t1 - t0 ∧ t1 - t0 < 10000
          then { c.arg with dryContactDoorOpen := true } else c.arg) := by
  have h0 : ¬ t0 < 2000 := by omega
  have h1 : ¬ t1 < 2000 := by omega
  have hsub := sub32_eq t1 t0 horder hclock
  simp only [isrDoorOpen, STARTUP_DELAY, h0, h1, if_false, Bool.not_false, Bool.not_true,
    if_true, hsub, Bool.false_eq_true, gt_iff_lt]
  split_ifs <;> rfl

theorem isrDoorClose_fall_rise (c : ContactIsr) (t0 t1 : Nat)
    (hstart : 2000 ≤ t0) (horder : t0 ≤ t1) (hclock : t1 < 2 ^ 32) :
    (isrDoorClose t1 true (isrDoorClose t0 false c)).arg
      = (if 500 < t1 - t0 ∧ t1 - t0 < 10000
          then { c.arg with dryContactDoorClose := true } else c.arg) := by
  have h0 : ¬ t0 < 2000 := by omega
  have h1 : ¬ t1 < 2000 := by omega
  have hsub := sub32_eq t1 t0 horder hclock
  simp only [isrDoorClose, STARTUP_DELAY, h0, h1, if_false, Bool.not_false, Bool.not_true,
    if_true, hsub, Bool.false_eq_true, gt_iff_lt]
  split_ifs <;> rfl

theorem isrLight_fall_rise (c : ContactIsr) (t0 t1 : Nat)
    (hstart : 2000 ≤ t0) (horder : t0 ≤ t1) (hclock : t1 < 2 ^ 32) :
    (isrLight t1 true (isrLight t0 false c)).arg
      = (if 500 < t1 - t0 ∧ t1 - t0 < 10000
          then { c.arg with dryContactToggleLight := true } else c.arg) := by
  have h0 : ¬ t0 < 2000 := by omega
  have h1 : ¬ t1 < 2000 := by omega
  have hsub := sub32_eq t1 t0 horder hclock
  simp only [isrLight, STARTUP_DELAY, h0, h1, if_false, Bool.not_false, Bool.not_true,
    if_true, hsub, Bool.false_eq_true, gt_iff_lt]
  split_ifs <;> rfl

/-- C9. For each of the three contact handlers: after a falling edge processed
at `t0 ≥ 2000` ms and a following rising edge at `t1 ≥ t0`, the event flag is
latched when `500 < t1 - t0 < 10000` and the store is unchanged otherwise, so
the rising edge latches the event exactly when the elapsed time is strictly
inside the window. The times are values of the 32-bit millisecond clock. -/
theorem contact_debounce_window (c : ContactIsr) (t0 t1 : Nat)
    (hstart : 2000 ≤ t0) (horder : t0 ≤ t1) (hclock : t1 < 2 ^ 32) :
    (isrDoorOpen t1 true (isrDoorOpen t0 false c)).arg
        = (if 500 < t1 - t0 ∧ t1 - t0 < 10000
            then { c.arg with dryContactDoorOpen := true } else c.arg)
      ∧ (isrDoorClose t1 true (isrDoorClose t0 false c)).arg
        = (if 500 < t1 - t0 ∧ t1 - t0 < 10000
            then { c.arg with dryContactDoorClose := true } else c.arg)
      ∧ (isrLight t1 true (isrLight t0 false c)).arg
        = (if 500 < t1 - t0 ∧ t1 - t0 < 10000
            then { c.arg with dryContactToggleLight := true } else c.arg) :=
  ⟨isrDoorOpen_fall_rise c t0 t1 hstart horder hclock,
   isrDoorClose_fall_rise c t0 t1 hstart horder hclock,
   isrLight_fall_rise c t0 t1 hstart horder hclock⟩

/-- A run of C9: falling edge at 3000 ms, rising edge at 4000 ms. -/
theorem contact_debounce_window_witness :
    (isrDoorOpen 4000 true (isrDoorOpen 3000 false initialContactIsr)).arg
        = (if 500 < 4000 - 3000 ∧ 4000 - 3000 < 10000
            then { initialContactIsr.arg with dryContactDoorOpen := true }
            else initialContactIsr.arg)
      ∧ (isrDoorClose 4000 true (isrDoorClose 3000 false initialContactIsr)).arg
        = (if 500 < 4000 - 3000 ∧ 4000 - 3000 < 10000
            then { initialContactIsr.arg with dryContactDoorClose := true }
            else initialContactIsr.arg)
      ∧ (isrLight 4000 true (isrLight 3000 false initialContactIsr)).arg
        = (if 500 < 4000 - 3000 ∧ 4000 - 3000 < 10000
            then { initialContactIsr.arg with dryContactToggleLight := true }
            else initialContactIsr.arg) :=
  contact_debounce_window initialContactIsr 3000 4000 (by decide) (by decide) (by decide)

/-- The input of C10: after a falling edge at 0 ms, the rising edge at 501 ms
does not latch the event, so the three outcomes claimed do not all hold. -/
theorem debounce_501_after_0_not_latched :
    ¬ ((isrDoorOpen 499 true (isrDoorOpen 0 false initialContactIsr)).arg.dryContactDoorOpen
          = false
        ∧ (isrDoorOpen 501 true (isrDoorOpen 0 false initialContactIsr)).arg.dryContactDoorOpen
          = true
        ∧ (isrDoorOpen 10001 true (isrDoorOpen 0 false initialContactIsr)).arg.dryContactDoorOpen
          = false) := by
  decide

/-- C10, amended. From a debouncer state with no event latched and stored
falling-edge time 0: a falling edge at 0 ms followed by a rising edge at 499 ms,
or instead at 501 ms, or instead at 10001 ms, does not latch the event (edges
before 2000 ms are ignored); with the falling edge at any `t0 ≥ 2000` ms, a
rising edge at `t0 + 499` ms does not latch, at `t0 + 501` ms it does latch, and
at `t0 + 10001` ms it does not latch. -/
theorem debounce_window_examples (c : ContactIsr) (t0 : Nat)
    (hflag : c.arg.dryContactDoorOpen = false) (hlast : c.lastOpenDoorTime = 0)
    (hstart : 2000 ≤ t0) (hclock : t0 + 10001 < 2 ^ 32) :
    (isrDoorOpen 499 true (isrDoorOpen 0 false c)).arg.dryContactDoorOpen = false
      ∧ (isrDoorOpen 501 true (isrDoorOpen 0 false c)).arg.dryContactDoorOpen = false
      ∧ (isrDoorOpen 10001 true (isrDoorOpen 0 false c)).arg.dryContactDoorOpen = false
      ∧ (isrDoorOpen (t0 + 499) true (isrDoorOpen t0 false c)).arg.dryContactDoorOpen = false
      ∧ (isrDoorOpen (t0 + 501) true (isrDoorOpen t0 false c)).arg.dryContactDoorOpen = true
      ∧ (isrDoorOpen (t0 + 10001) true (isrDoorOpen t0 false c)).arg.dryContactDoorOpen
          = false := by
  have hA := isrDoorOpen_fall_rise c t0 (t0 + 499) hstart (by omega) (by omega)
  have hB := isrDoorOpen_fall_rise c t0 (t0 + 501) hstart (by omega) (by omega)
  have hC := isrDoorOpen_fall_rise c t0 (t0 + 10001) hstart (by omega) (by omega)
  have e1 : t0 + 499 - t0 = 499 := by omega
  have e2 : t0 + 501 - t0 = 501 := by omega
  have e3 : t0 + 10001 - t0 = 10001 := by omega
  rw [e1] at hA
  rw [e2] at hB
  rw [e3] at hC
  have h10001 : sub32 10001 0 = 10001 := by decide
  refine ⟨?_, ?_, ?_, ?_, ?_, ?_⟩
  · simp [isrDoorOpen, STARTUP_DELAY, hflag]
  · simp [isrDoorOpen, STARTUP_DELAY, hflag]
  · simp [isrDoorOpen, STARTUP_DELAY, hflag, hlast, h10001]
  · rw [hA]; simpa using hflag
  · rw [hB]; simp
  · rw [hC]; simpa using hflag

/-- A run of the amended C10 from the startup debouncer state, with the falling
edge at 2000 ms. -/
theorem debounce_window_examples_witness :
    (isrDoorOpen 499 true (isrDoorOpen 0 false initialContactIsr)).arg.dryContactDoorOpen
        = false
      ∧ (isrDoorOpen 501 true (isrDoorOpen 0 false initialContactIsr)).arg.dryContactDoorOpen
        = false
      ∧ (isrDoorOpen 10001 true (isrDoorOpen 0 false initialContactIsr)).arg.dryContactDoorOpen
        = false
      ∧ (isrDoorOpen (2000 + 499) true
          (isrDoorOpen 2000 false initialContactIsr)).arg.dryContactDoorOpen = false
      ∧ (isrDoorOpen (2000 + 501) true
          (isrDoorOpen 2000 false initialContactIsr)).arg.dryContactDoorOpen = true
      ∧ (isrDoorOpen (2000 + 10001) true
          (isrDoorOpen 2000 false initialContactIsr)).arg.dryContactDoorOpen = false :=
  debounce_window_examples initialContactIsr 2000 rfl rfl (by decide) (by decide)

/-! ## Startup guard of the contact handlers -/

theorem contactIsr_guard (e : Edge) (c : ContactIsr) (h : e.millis < 2000) :
    contactIsr e c = c := by
  unfold contactIsr
  cases e.contact <;> simp [isrDoorOpen, isrDoorClose, isrLight, STARTUP_DELAY, h]

/-- C11. For every sequence of edges on the three contact inputs, at any levels
and in any order, whose timestamps are all below 2000 ms, the debouncer state
after the sequence equals the state before it: no event is latched and no
falling-edge time is recorded. -/
theorem runEdges_startup_guard (edges : List Edge) (c : ContactIsr)
    (hearly : ∀ e ∈ edges, e.millis < 2000) :
    runEdges edges c = c := by
  induction edges generalizing c with
  | nil => rfl
  | cons e es ih =>
    have hstep := contactIsr_guard e c (hearly e (List.mem_cons_self e es))
    have hrest := ih c (fun x hx => hearly x (List.mem_cons_of_mem e hx))
    show runEdges es (contactIsr e c) = c
    rw [hstep, hrest]

/-- A run of C11: a falling and a rising edge on each contact before 2000 ms. -/
theorem runEdges_startup_guard_witness :
    runEdges
        [⟨Contact.doorOpen, 100, false⟩, ⟨Contact.doorOpen, 900, true⟩,
         ⟨Contact.doorClose, 1000, false⟩, ⟨Contact.light, 1100, false⟩,
         ⟨Contact.doorClose, 1900, true⟩, ⟨Contact.light, 1999, true⟩]
        initialContactIsr
      = initialContactIsr :=
  runEdges_startup_guard _ initialContactIsr (by decide)

/-! ## Requests, guards and persistence -/

theorem toggleDoor_serialWrites (w : Wireline) (s : RATGDOComponent) :
    serialWrites (toggleDoor w s).effects
      = serialWrites s.effects ++
        [w.encode_wireline s.rollingCodeCounter (0x200000000 ||| 0x539) 0x01018280
            s.txRollingCode,
         w.encode_wireline s.rollingCodeCounter (0x200000000 ||| 0x539) 0x01009280
            (w.encode_wireline s.rollingCodeCounter (0x200000000 ||| 0x539) 0x01018280
              s.txRollingCode)] := by
  simp [toggleDoor, transmit, getRollingCode, RATGDOComponent.emit, serialWrites_append,
    serialWrites]

/-- C13. When the door state is Open or Opening, `openDoor` returns the
component as it was: no frame is transmitted and the counter is unchanged. In
every other door state it transmits exactly two frames, the `DOOR1` frame and
then the `DOOR2` frame. `closeDoor` does the same with Closed and Closing as the
states in which it does nothing. -/
theorem openDoor_closeDoor_guards (d : Declarations) (w : Wireline) (s : RATGDOComponent) :
    (s.store_.doorState = d.DOOR_STATE_OPEN ∨ s.store_.doorState = d.DOOR_STATE_OPENING →
        openDoor d w s = s)
      ∧ (¬ (s.store_.doorState = d.DOOR_STATE_OPEN ∨ s.store_.doorState = d.DOOR_STATE_OPENING) →
        serialWrites (openDoor d w s).effects
          = serialWrites s.effects ++
            [w.encode_wireline s.rollingCodeCounter (0x200000000 ||| 0x539) 0x01018280
                s.txRollingCode,
             w.encode_wireline s.rollingCodeCounter (0x200000000 ||| 0x539) 0x01009280
                (w.encode_wireline s.rollingCodeCounter (0x200000000 ||| 0x539) 0x01018280
                  s.txRollingCode)])
      ∧ (s.store_.doorState = d.DOOR_STATE_CLOSED ∨ s.store_.doorState = d.DOOR_STATE_CLOSING →
        closeDoor d w s = s)
      ∧ (¬ (s.store_.doorState = d.DOOR_STATE_CLOSED
            ∨ s.store_.doorState = d.DOOR_STATE_CLOSING) →
        serialWrites (closeDoor d w s).effects
          = serialWrites s.effects ++
            [w.encode_wireline s.rollingCodeCounter (0x200000000 ||| 0x539) 0x01018280
                s.txRollingCode,
             w.encode_wireline s.rollingCodeCounter (0x200000000 ||| 0x539) 0x01009280
                (w.encode_wireline s.rollingCodeCounter (0x200000000 ||| 0x539) 0x01018280
                  s.txRollingCode)]) := by
  refine ⟨?_, ?_, ?_, ?_⟩
  · intro h
    simp only [openDoor, h, if_true]
  · intro h
    simp only [openDoor, h, if_false]
    exact toggleDoor_serialWrites w s
  · intro h
    simp only [closeDoor, h, if_true]
  · intro h
    simp only [closeDoor, h, if_false]
    exact toggleDoor_serialWrites w s

/-- A run of C13: `openDoor` on an open door (state 1) does nothing, on a closed
door (state 2) it writes two packets. -/
theorem openDoor_closeDoor_guards_witness :
    openDoor sampleDeclarations sampleWireline (withDoor 1) = withDoor 1
      ∧ serialWrites (openDoor sampleDeclarations sampleWireline (withDoor 2)).effects
          = serialWrites (withDoor 2).effects ++
            [sampleWireline.encode_wireline (withDoor 2).rollingCodeCounter
                (0x200000000 ||| 0x539) 0x01018280 (withDoor 2).txRollingCode,
             sampleWireline.encode_wireline (withDoor 2).rollingCodeCounter
                (0x200000000 ||| 0x539) 0x01009280
                (sampleWireline.encode_wireline (withDoor 2).rollingCodeCounter
                  (0x200000000 ||| 0x539) 0x01018280 (withDoor 2).txRollingCode)] :=
  ⟨(openDoor_closeDoor_guards sampleDeclarations sampleWireline (withDoor 1)).1
      (Or.inl rfl),
   (openDoor_closeDoor_guards sampleDeclarations sampleWireline (withDoor 2)).2.1
      (by decide)⟩

/-- C14, evaluated on the code. For a command that is not in the command table,
`getRollingCode` leaves the counter and the transmit buffer unchanged, but
`transmit` still pulses the output line and writes the unchanged transmit buffer
to the serial port, and `sendCommand` does the same and saves the counter. -/
theorem transmit_invalid_command (w : Wireline) (raw : Nat) (s : RATGDOComponent) :
    (transmit w (Commands.other raw) s).effects
        = s.effects ++
          [Effect.gdoWrite true, Effect.delayMicroseconds 1305, Effect.gdoWrite false,
           Effect.delayMicroseconds 1260, Effect.serialWrite s.txRollingCode]
      ∧ (transmit w (Commands.other raw) s).rollingCodeCounter = s.rollingCodeCounter
      ∧ (transmit w (Commands.other raw) s).txRollingCode = s.txRollingCode
      ∧ serialWrites (sendCommand w (Commands.other raw) s).effects
          = serialWrites s.effects ++ [s.txRollingCode] := by
  refine ⟨?_, ?_, ?_, ?_⟩ <;>
    simp [sendCommand, transmit, getRollingCode, RATGDOComponent.emit, serialWrites_append,
      serialWrites]

theorem sendCommand_saved (w : Wireline) (command : Commands) (s : RATGDOComponent) :
    (sendCommand w command s).pref_ = some (sendCommand w command s).rollingCodeCounter := by
  simp [sendCommand]

theorem toggleDoor_saved (w : Wireline) (s : RATGDOComponent) :
    (toggleDoor w s).pref_ = some (toggleDoor w s).rollingCodeCounter := by
  simp [toggleDoor]

/-- C15. Each of `sync`, `toggleDoor` and `sendCommand` ends with a save of the
counter, so the persisted value equals the counter in memory when it returns;
the same holds for every request built on them when it transmits: `openDoor`,
`closeDoor` and `stopDoor` when their guard lets the toggle through, `lightOn`,
`lightOff`, `lock` and `unlock` when the state is not already the requested
one. -/
theorem counter_saved_after_send (d : Declarations) (w : Wireline) (command : Commands)
    (s : RATGDOComponent) :
    (sync w s).pref_ = some (sync w s).rollingCodeCounter
      ∧ (toggleDoor w s).pref_ = some (toggleDoor w s).rollingCodeCounter
      ∧ (sendCommand w command s).pref_ = some (sendCommand w command s).rollingCodeCounter
      ∧ (¬ (s.store_.doorState = d.DOOR_STATE_OPEN ∨ s.store_.doorState = d.DOOR_STATE_OPENING) →
          (openDoor d w s).pref_ = some (openDoor d w s).rollingCodeCounter)
      ∧ (¬ (s.store_.doorState = d.DOOR_STATE_CLOSED
            ∨ s.store_.doorState = d.DOOR_STATE_CLOSING) →
          (closeDoor d w s).pref_ = some (closeDoor d w s).rollingCodeCounter)
      ∧ (s.store_.doorState = d.DOOR_STATE_OPENING ∨ s.store_.doorState = d.DOOR_STATE_CLOSING →
          (stopDoor d w s).pref_ = some (stopDoor d w s).rollingCodeCounter)
      ∧ (s.store_.lightState ≠ d.LIGHT_STATE_ON →
          (lightOn d w s).pref_ = some (lightOn d w s).rollingCodeCounter)
      ∧ (s.store_.lightState ≠ d.LIGHT_STATE_OFF →
          (lightOff d w s).pref_ = some (lightOff d w s).rollingCodeCounter)
      ∧ (s.store_.lockState ≠ d.LOCK_STATE_LOCKED →
          (lock d w s).pref_ = some (lock d w s).rollingCodeCounter)
      ∧ (s.store_.lockState ≠ d.LOCK_STATE_UNLOCKED →
          (unlock d w s).pref_ = some (unlock d w s).rollingCodeCounter) := by
  refine ⟨?_, toggleDoor_saved w s, sendCommand_saved w command s, ?_, ?_, ?_, ?_, ?_, ?_, ?_⟩
  · simp [sync]
  · intro h
    simp only [openDoor, h, if_false]
    exact toggleDoor_saved w s
  · intro h
    simp only [closeDoor, h, if_false]
    exact toggleDoor_saved w s
  · intro h
    simp only [stopDoor, h, if_true]
    exact toggleDoor_saved w s
  · intro h
    simp only [lightOn, h, if_false, toggleLight]
    exact sendCommand_saved w _ s
  · intro h
    simp only [lightOff, h, if_false, toggleLight]
    exact sendCommand_saved w _ s
  · intro h
    simp only [lock, h, if_false, toggleLock]
    exact sendCommand_saved w _ s
  · intro h
    simp only [unlock, h, if_false, toggleLock]
    exact sendCommand_saved w _ s

/-- A run of C15 from the zero component with a closed door (state 2): after the
six commands of `sync` the persisted counter is 6, after `openDoor` it is 1. -/
theorem counter_saved_after_send_witness :
    (sync sampleWireline (withDoor 2)).pref_ = some 6
      ∧ (sync sampleWireline (withDoor 2)).rollingCodeCounter = 6
      ∧ (openDoor sampleDeclarations sampleWireline (withDoor 2)).pref_
          = some (openDoor sampleDeclarations sampleWireline (withDoor 2)).rollingCodeCounter
      ∧ (openDoor sampleDeclarations sampleWireline (withDoor 2)).rollingCodeCounter = 1 :=
  ⟨(counter_saved_after_send sampleDeclarations sampleWireline Commands.LIGHT (withDoor 2)).1,
   by decide,
   (counter_saved_after_send sampleDeclarations sampleWireline Commands.LIGHT
      (withDoor 2)).2.2.2.1 (by decide),
   by decide⟩

/-! ## Properties of the state broadcaster -/

theorem notifications_append (ch : Channel) (a b : List Effect) :
    notifications ch (a ++ b) = notifications ch a ++ notifications ch b := by
  simp [notifications, List.filterMap_append]

theorem notifications_door_map (ch : Channel) (cs : List Nat) (v : Nat) :
    notifications ch (cs.map (fun child => Effect.onDoorState child v))
      = if ch = Channel.door then cs.map (fun child => (child, v)) else [] := by
  induction cs with
  | nil => simp [notifications]
  | cons c cs ih =>
    simp only [notifications] at ih
    simp only [notifications, List.map_cons, List.filterMap_cons, Effect.notificationOn,
      Effect.notification, ih]
    cases ch <;> simp

theorem notifications_light_map (ch : Channel) (cs : List Nat) (v : Nat) :
    notifications ch (cs.map (fun child => Effect.onLightState child v))
      = if ch = Channel.light then cs.map (fun child => (child, v)) else [] := by
  induction cs with
  | nil => simp [notifications]
  | cons c cs ih =>
    simp only [notifications] at ih
    simp only [notifications, List.map_cons, List.filterMap_cons, Effect.notificationOn,
      Effect.notification, ih]
    cases ch <;> simp

theorem notifications_lock_map (ch : Channel) (cs : List Nat) (v : Nat) :
    notifications ch (cs.map (fun child => Effect.onLockState child v))
      = if ch = Channel.lock then cs.map (fun child => (child, v)) else [] := by
  induction cs with
  | nil => simp [notifications]
  | cons c cs ih =>
    simp only [notifications] at ih
    simp only [notifications, List.map_cons, List.filterMap_cons, Effect.notificationOn,
      Effect.notification, ih]
    cases ch <;> simp

theorem notifications_motion_map (ch : Channel) (cs : List Nat) (v : Nat) :
    notifications ch (cs.map (fun child => Effect.onMotionState child v))
      = if ch = Channel.motion then cs.map (fun child => (child, v)) else [] := by
  induction cs with
  | nil => simp [notifications]
  | cons c cs ih =>
    simp only [notifications] at ih
    simp only [notifications, List.map_cons, List.filterMap_cons, Effect.notificationOn,
      Effect.notification, ih]
    cases ch <;> simp

theorem notifications_obstruction_map (ch : Channel) (cs : List Nat) (v : Nat) :
    notifications ch (cs.map (fun child => Effect.onObstructionState child v))
      = if ch = Channel.obstruction then cs.map (fun child => (child, v)) else [] := by
  induction cs with
  | nil => simp [notifications]
  | cons c cs ih =>
    simp only [notifications] at ih
    simp only [notifications, List.map_cons, List.filterMap_cons, Effect.notificationOn,
      Effect.notification, ih]
    cases ch <;> simp

theorem notifications_statusDoorWrite (ch : Channel) (level : Bool) (es : List Effect) :
    notifications ch (Effect.statusDoorWrite level :: es) = notifications ch es := rfl

theorem notifications_statusObstWrite (ch : Channel) (level : Bool) (es : List Effect) :
    notifications ch (Effect.statusObstWrite level :: es) = notifications ch es := rfl

theorem notifications_nil (ch : Channel) : notifications ch [] = [] := rfl

/-- The notifications of one pass of `statusUpdateLoop`, channel by channel. -/
theorem statusUpdateLoop_notifications (d : Declarations) (s : RATGDOComponent) (ch : Channel) :
    notifications ch (statusUpdateLoop d s).effects
      = notifications ch s.effects
        ++ (if ch = Channel.door ∧ s.store_.doorState ≠ s.previousDoorState
            then s.children_.map (fun child => (child, s.store_.doorState)) else [])
        ++ (if ch = Channel.light ∧ s.store_.lightState ≠ s.previousLightState
            then s.children_.map (fun child => (child, s.store_.lightState)) else [])
        ++ (if ch = Channel.lock ∧ s.store_.lockState ≠ s.previousLockState
            then s.children_.map (fun child => (child, s.store_.lockState)) else [])
        ++ (if ch = Channel.obstruction
              ∧ s.store_.obstructionState ≠ s.previousObstructionState
            then s.children_.map (fun child => (child, s.store_.obstructionState)) else [])
        ++ (if ch = Channel.motion ∧ s.store_.motionState = d.MOTION_STATE_DETECTED
            then s.children_.map (fun child => (child, s.store_.motionState))
              ++ s.children_.map (fun child => (child, d.MOTION_STATE_CLEAR % 2 ^ 8))
            else []) := by
  unfold statusUpdateLoop
  by_cases h1 : s.store_.doorState = s.previousDoorState <;>
  by_cases h2 : s.store_.lightState = s.previousLightState <;>
  by_cases h3 : s.store_.lockState = s.previousLockState <;>
  by_cases h4 : s.store_.obstructionState = s.previousObstructionState <;>
  by_cases h5 : s.store_.motionState = d.MOTION_STATE_DETECTED <;>
  cases ch <;>
  simp [h1, h2, h3, h4, h5, sendDoorStatus, sendLightStatus, sendLockStatus, sendMotionStatus,
    sendObstructionStatus, RATGDOComponent.emit, notifications_append, notifications_door_map,
    notifications_light_map, notifications_lock_map, notifications_motion_map,
    notifications_obstruction_map, notifications_statusDoorWrite, notifications_statusObstWrite,
    notifications_nil]


theorem statusUpdateLoop_store (d : Declarations) (s : RATGDOComponent) :
    (statusUpdateLoop d s).store_
      = (if s.store_.motionState = d.MOTION_STATE_DETECTED
          then { s.store_ with motionState := d.MOTION_STATE_CLEAR % 2 ^ 8 } else s.store_) := by
  unfold statusUpdateLoop
  by_cases h1 : s.store_.doorState = s.previousDoorState <;>
  by_cases h2 : s.store_.lightState = s.previousLightState <;>
  by_cases h3 : s.store_.lockState = s.previousLockState <;>
  by_cases h4 : s.store_.obstructionState = s.previousObstructionState <;>
  by_cases h5 : s.store_.motionState = d.MOTION_STATE_DETECTED <;>
  simp [h1, h2, h3, h4, h5, sendDoorStatus, sendLightStatus, sendLockStatus, sendMotionStatus,
    sendObstructionStatus, RATGDOComponent.emit]

theorem statusUpdateLoop_children (d : Declarations) (s : RATGDOComponent) :
    (statusUpdateLoop d s).children_ = s.children_ := by
  unfold statusUpdateLoop
  by_cases h1 : s.store_.doorState = s.previousDoorState <;>
  by_cases h2 : s.store_.lightState = s.previousLightState <;>
  by_cases h3 : s.store_.lockState = s.previousLockState <;>
  by_cases h4 : s.store_.obstructionState = s.previousObstructionState <;>
  by_cases h5 : s.store_.motionState = d.MOTION_STATE_DETECTED <;>
  simp [h1, h2, h3, h4, h5, sendDoorStatus, sendLightStatus, sendLockStatus, sendMotionStatus,
    sendObstructionStatus, RATGDOComponent.emit]

/-- The values recorded by a pass of `statusUpdateLoop` are the values of the
store when the pass ends. -/
theorem statusUpdateLoop_previous (d : Declarations) (s : RATGDOComponent) :
    (statusUpdateLoop d s).previousDoorState = (statusUpdateLoop d s).store_.doorState
      ∧ (statusUpdateLoop d s).previousLightState = (statusUpdateLoop d s).store_.lightState
      ∧ (statusUpdateLoop d s).previousLockState = (statusUpdateLoop d s).store_.lockState
      ∧ (statusUpdateLoop d s).previousObstructionState
          = (statusUpdateLoop d s).store_.obstructionState := by
  refine ⟨?_, ?_, ?_, ?_⟩ <;> simp [statusUpdateLoop]

theorem readRollingCode_motion (w : Wireline) (rx : Frame) (st : RATGDOStore)
    (rolling fixed data : Nat)
    (hdec : w.decode_wireline rx = (rolling, fixed, data))
    (hfixed : fixed < 2 ^ 64) (hdata : data < 2 ^ 32)
    (hop : opcode fixed data = 0x285) :
    readRollingCode w rx st = { st with motionState := 1 } := by
  have hcmd := readRollingCode_cmd fixed data
  rw [hop] at hcmd
  unfold readRollingCode
  simp only [hdec, Nat.mod_eq_of_lt hfixed, Nat.mod_eq_of_lt hdata, hcmd]
  rfl

/-- C16. With `MOTION_STATE_DETECTED = 1` and `MOTION_STATE_CLEAR = 0`: for every
prior state, ingesting a frame whose opcode is `0x285` sets the motion state to
Detected; the pass of `statusUpdateLoop` that follows sends every registered
observer, in registration order, a motion notification Detected and then sends
every one of them a motion notification Clear, no other motion notification, and
leaves the motion state Clear; a pass that starts with the motion state Clear
sends no motion notification. -/
theorem motion_pulse (d : Declarations) (w : Wireline) (rx : Frame) (s : RATGDOComponent)
    (rolling fixed data : Nat)
    (hdec : w.decode_wireline rx = (rolling, fixed, data))
    (hfixed : fixed < 2 ^ 64) (hdata : data < 2 ^ 32)
    (hop : opcode fixed data = 0x285)
    (hdetected : d.MOTION_STATE_DETECTED = 1) (hclear : d.MOTION_STATE_CLEAR = 0) :
    (readRollingCode w rx s.store_).motionState = d.MOTION_STATE_DETECTED
      ∧ notifications Channel.motion
            (statusUpdateLoop d { s with store_ := readRollingCode w rx s.store_ }).effects
          = notifications Channel.motion s.effects
            ++ s.children_.map (fun child => (child, d.MOTION_STATE_DETECTED))
            ++ s.children_.map (fun child => (child, d.MOTION_STATE_CLEAR))
      ∧ (statusUpdateLoop d { s with store_ := readRollingCode w rx s.store_ }).store_.motionState
          = d.MOTION_STATE_CLEAR
      ∧ (s.store_.motionState = d.MOTION_STATE_CLEAR →
          notifications Channel.motion (statusUpdateLoop d s).effects
            = notifications Channel.motion s.effects) := by
  have hread := readRollingCode_motion w rx s.store_ rolling fixed data hdec hfixed hdata hop
  refine ⟨?_, ?_, ?_, ?_⟩
  · rw [hread, hdetected]
  · rw [statusUpdateLoop_notifications, hread]
    simp [hdetected, hclear]
  · rw [statusUpdateLoop_store, hread]
    simp [hdetected, hclear]
  · intro hmotion
    rw [statusUpdateLoop_notifications]
    simp [hmotion, hdetected, hclear]

/-- A run of C16 with the observers 7 and 9. -/
theorem motion_pulse_witness :
    (readRollingCode sampleWireline motionFrame (withMotion 0).store_).motionState = 1
      ∧ notifications Channel.motion
            (statusUpdateLoop sampleDeclarations
              { withMotion 0 with
                store_ := readRollingCode sampleWireline motionFrame (withMotion 0).store_ }).effects
          = [(7, 1), (9, 1), (7, 0), (9, 0)]
      ∧ (statusUpdateLoop sampleDeclarations
            { withMotion 0 with
              store_ := readRollingCode sampleWireline motionFrame
                (withMotion 0).store_ }).store_.motionState = 0
      ∧ ((withMotion 0).store_.motionState = 0 →
          notifications Channel.motion (statusUpdateLoop sampleDeclarations (withMotion 0)).effects
            = notifications Channel.motion (withMotion 0).effects) :=
  motion_pulse sampleDeclarations sampleWireline motionFrame (withMotion 0) 0 0x200000000 0x85
    (by decide) (by decide) (by decide) (by decide) rfl rfl

/-- C18. In a pass of `statusUpdateLoop`, for each of the channels door, light,
lock and obstruction, every registered observer is notified of the current value
when it differs from the value recorded by the previous pass, and no observer is
notified on that channel when it does not; when the pass ends the recorded
values equal the current values; so a pass that immediately follows another
sends no notification on these four channels. When the function-local statics
have their initialisers, the recorded values are the Unknown enumerators. -/
theorem statusUpdateLoop_change_detection (d : Declarations) (s : RATGDOComponent) :
    (notifications Channel.door (statusUpdateLoop d s).effects
        = notifications Channel.door s.effects
          ++ (if s.store_.doorState ≠ s.previousDoorState
              then s.children_.map (fun child => (child, s.store_.doorState)) else [])
      ∧ notifications Channel.light (statusUpdateLoop d s).effects
        = notifications Channel.light s.effects
          ++ (if s.store_.lightState ≠ s.previousLightState
              then s.children_.map (fun child => (child, s.store_.lightState)) else [])
      ∧ notifications Channel.lock (statusUpdateLoop d s).effects
        = notifications Channel.lock s.effects
          ++ (if s.store_.lockState ≠ s.previousLockState
              then s.children_.map (fun child => (child, s.store_.lockState)) else [])
      ∧ notifications Channel.obstruction (statusUpdateLoop d s).effects
        = notifications Channel.obstruction s.effects
          ++ (if s.store_.obstructionState ≠ s.previousObstructionState
              then s.children_.map (fun child => (child, s.store_.obstructionState)) else []))
      ∧ ((statusUpdateLoop d s).previousDoorState = (statusUpdateLoop d s).store_.doorState
        ∧ (statusUpdateLoop d s).previousLightState = (statusUpdateLoop d s).store_.lightState
        ∧ (statusUpdateLoop d s).previousLockState = (statusUpdateLoop d s).store_.lockState
        ∧ (statusUpdateLoop d s).previousObstructionState
            = (statusUpdateLoop d s).store_.obstructionState)
      ∧ (notifications Channel.door (statusUpdateLoop d (statusUpdateLoop d s)).effects
          = notifications Channel.door (statusUpdateLoop d s).effects
        ∧ notifications Channel.light (statusUpdateLoop d (statusUpdateLoop d s)).effects
          = notifications Channel.light (statusUpdateLoop d s).effects
        ∧ notifications Channel.lock (statusUpdateLoop d (statusUpdateLoop d s)).effects
          = notifications Channel.lock (statusUpdateLoop d s).effects
        ∧ notifications Channel.obstruction (statusUpdateLoop d (statusUpdateLoop d s)).effects
          = notifications Channel.obstruction (statusUpdateLoop d s).effects)
      ∧ ((initialStatics d s).previousDoorState = d.DOOR_STATE_UNKNOWN % 2 ^ 8
        ∧ (initialStatics d s).previousLightState = d.LIGHT_STATE_UNKNOWN % 2 ^ 8
        ∧ (initialStatics d s).previousLockState = d.LOCK_STATE_UNKNOWN % 2 ^ 8
        ∧ (initialStatics d s).previousObstructionState
            = d.OBSTRUCTION_STATE_UNKNOWN % 2 ^ 8) := by
  obtain ⟨p1, p2, p3, p4⟩ := statusUpdateLoop_previous d s
  refine ⟨⟨?_, ?_, ?_, ?_⟩, ⟨p1, p2, p3, p4⟩, ⟨?_, ?_, ?_, ?_⟩, ⟨rfl, rfl, rfl, rfl⟩⟩
  · rw [statusUpdateLoop_notifications]; simp
  · rw [statusUpdateLoop_notifications]; simp
  · rw [statusUpdateLoop_notifications]; simp
  · rw [statusUpdateLoop_notifications]; simp
  · rw [statusUpdateLoop_notifications d (statusUpdateLoop d s)]; simp [p1]
  · rw [statusUpdateLoop_notifications d (statusUpdateLoop d s)]; simp [p2]
  · rw [statusUpdateLoop_notifications d (statusUpdateLoop d s)]; simp [p3]
  · rw [statusUpdateLoop_notifications d (statusUpdateLoop d s)]; simp [p4]

/-! ## Properties of the obstruction detector -/

theorem highFor70_eq (d : Declarations) (now last : Nat) (hclock : now < 2 ^ 31)
    (hlast : last ≤ now) :
    highFor70 d now last = decide (70 < now - last) := by
  have hsub := sub32_eq now last hlast (by omega)
  unfold highFor70
  rw [hsub]
  cases d.lastObstructionHighSigned
  · simp
  · have hlt : now - last < 2147483648 := by omega
    simp [hlt]

/-- C12. When `obstructionLoop` evaluates a window, that is when more than 50 ms
have passed since the last evaluation: a low-pulse count from 3 to 8 makes the
obstruction state Clear; a count of 0 with the input reading high and more than
70 ms passed since the last recorded high makes it Obstructed; a count of 0
otherwise, a count of 1 or 2, and a count above 8 leave the obstruction state
as it was. The times are clock values below `2^31` ms, the recorded times are
not after the current time, and the two enumerators are byte values. -/
theorem obstructionLoop_classification (d : Declarations) (now : Nat) (pin : Bool)
    (s : RATGDOComponent)
    (hclock : now < 2 ^ 31) (hlast : s.lastMillis ≤ now)
    (hhigh : s.store_.lastObstructionHigh ≤ now)
    (hwindow : 50 < now - s.lastMillis)
    (hclear : d.OBSTRUCTION_STATE_CLEAR < 2 ^ 8)
    (hobstructed : d.OBSTRUCTION_STATE_OBSTRUCTED < 2 ^ 8) :
    (3 ≤ s.store_.obstructionLowCount ∧ s.store_.obstructionLowCount ≤ 8 →
        (obstructionLoop d now pin s).store_.obstructionState = d.OBSTRUCTION_STATE_CLEAR)
      ∧ (s.store_.obstructionLowCount = 0 ∧ pin = true
            ∧ 70 < now - s.store_.lastObstructionHigh →
        (obstructionLoop d now pin s).store_.obstructionState
          = d.OBSTRUCTION_STATE_OBSTRUCTED)
      ∧ (s.store_.obstructionLowCount = 0
            ∧ ¬ (pin = true ∧ 70 < now - s.store_.lastObstructionHigh) →
        (obstructionLoop d now pin s).store_.obstructionState = s.store_.obstructionState)
      ∧ (s.store_.obstructionLowCount = 1 ∨ s.store_.obstructionLowCount = 2 →
        (obstructionLoop d now pin s).store_.obstructionState = s.store_.obstructionState)
      ∧ (8 < s.store_.obstructionLowCount →
        (obstructionLoop d now pin s).store_.obstructionState = s.store_.obstructionState) := by
  have hsub : sub32 now s.lastMillis = now - s.lastMillis := sub32_eq _ _ hlast (by omega)
  have hgate : sub32 now s.lastMillis > 50 := by rw [hsub]; exact hwindow
  have h70 := highFor70_eq d now s.store_.lastObstructionHigh hclock hhigh
  have hclear256 : d.OBSTRUCTION_STATE_CLEAR < 256 := hclear
  have hobstructed256 : d.OBSTRUCTION_STATE_OBSTRUCTED < 256 := hobstructed
  refine ⟨?_, ?_, ?_, ?_, ?_⟩
  · intro hcount
    simp [obstructionLoop, hgate, hcount, Nat.mod_eq_of_lt hclear256]
  · rintro ⟨hzero, hpin, helapsed⟩
    simp [obstructionLoop, hgate, hzero, hpin, h70, helapsed, Nat.mod_eq_of_lt hobstructed256]
  · rintro ⟨hzero, hnot⟩
    have hcond : (pin && highFor70 d now s.store_.lastObstructionHigh) = false := by
      rw [h70]
      cases pin
      · rfl
      · simpa using hnot
    simp [obstructionLoop, hgate, hzero, hcond]
  · intro hcount
    have h3 : ¬ (3 ≤ s.store_.obstructionLowCount ∧ s.store_.obstructionLowCount ≤ 8) := by
      omega
    have h0 : ¬ s.store_.obstructionLowCount = 0 := by omega
    simp only [obstructionLoop, hgate, if_true, ge_iff_le, h3, h0, if_false]
  · intro hcount
    have h3 : ¬ (3 ≤ s.store_.obstructionLowCount ∧ s.store_.obstructionLowCount ≤ 8) := by
      omega
    have h0 : ¬ s.store_.obstructionLowCount = 0 := by omega
    simp only [obstructionLoop, hgate, if_true, ge_iff_le, h3, h0, if_false]

/-- A run of C12 from the obstruction state Unknown (2), last evaluation at
5000 ms: five low pulses at 5051 ms give Clear (1); no pulse with the input high
since 5000 ms gives Obstructed (0) at 5080 ms. -/
theorem obstructionLoop_classification_witness :
    (obstructionLoop sampleDeclarations 5051 true
        (withObstruction 5 5000 5000 2)).store_.obstructionState = 1
      ∧ (obstructionLoop sampleDeclarations 5080 true
        (withObstruction 0 5000 5000 2)).store_.obstructionState = 0 :=
  ⟨(obstructionLoop_classification sampleDeclarations 5051 true (withObstruction 5 5000 5000 2)
      (by decide) (by decide) (by decide) (by decide) (by decide) (by decide)).1
      (by decide),
   (obstructionLoop_classification sampleDeclarations 5080 true (withObstruction 0 5000 5000 2)
      (by decide) (by decide) (by decide) (by decide) (by decide) (by decide)).2.1
      (by decide)⟩

/-- C19. A call of `obstructionLoop` made at most 50 ms after the last
evaluation changes nothing. A call made more than 50 ms after it ends with the
low-pulse count 0 and the last-evaluation time equal to the current time. The
times are values of the 32-bit millisecond clock and the last evaluation is not
after the current time. -/
theorem obstructionLoop_window (d : Declarations) (now : Nat) (pin : Bool)
    (s : RATGDOComponent) (hclock : now < 2 ^ 32) (hlast : s.lastMillis ≤ now) :
    (now - s.lastMillis ≤ 50 → obstructionLoop d now pin s = s)
      ∧ (50 < now - s.lastMillis →
          (obstructionLoop d now pin s).store_.obstructionLowCount = 0
            ∧ (obstructionLoop d now pin s).lastMillis = now) := by
  have hsub : sub32 now s.lastMillis = now - s.lastMillis := sub32_eq _ _ hlast hclock
  constructor
  · intro hearly
    have hgate : ¬ sub32 now s.lastMillis > 50 := by rw [hsub]; omega
    simp only [obstructionLoop, hgate, if_false]
  · intro hlate
    have hgate : sub32 now s.lastMillis > 50 := by rw [hsub]; exact hlate
    simp only [obstructionLoop, hgate, if_true]
    exact ⟨trivial, trivial⟩

/-- A run of C19 from a last evaluation at 5000 ms with five pulses counted:
nothing changes at 5050 ms; at 5051 ms the count is reset and the time
recorded. -/
theorem obstructionLoop_window_witness :
    obstructionLoop sampleDeclarations 5050 true (withObstruction 5 5000 5000 2)
        = withObstruction 5 5000 5000 2
      ∧ (obstructionLoop sampleDeclarations 5051 true
          (withObstruction 5 5000 5000 2)).store_.obstructionLowCount = 0
      ∧ (obstructionLoop sampleDeclarations 5051 true
          (withObstruction 5 5000 5000 2)).lastMillis = 5051 :=
  ⟨(obstructionLoop_window sampleDeclarations 5050 true (withObstruction 5 5000 5000 2)
      (by decide) (by decide)).1 (by decide),
   (obstructionLoop_window sampleDeclarations 5051 true (withObstruction 5 5000 5000 2)
      (by decide) (by decide)).2 (by decide)⟩

/-! ## Range of the stored door state -/

theorem readRollingCode_door (w : Wireline) (rx : Frame) (st : RATGDOStore) :
    (readRollingCode w rx st).doorState = st.doorState
      ∨ (readRollingCode w rx st).doorState < 16 := by
  unfold readRollingCode
  simp only []
  split_ifs
  · right
    simp only [and_0xf]
    omega
  · left; rfl
  · left; rfl
  · left; rfl
  · left; rfl

theorem readRollingCode_door_nibble (n : Nat) (hn : n < 16) (st : RATGDOStore) :
    (readRollingCode (constWireline (n * 256 + 0x81)) zeroFrame st).doorState = n := by
  have hdata : n * 256 + 0x81 < 2 ^ 32 := by omega
  have hop : opcode 0 (n * 256 + 0x81) = 0x81 := by
    unfold opcode
    simp only [and_0xff, Nat.zero_shiftRight, Nat.zero_and, Nat.zero_or]
    omega
  have hcmd := readRollingCode_cmd 0 (n * 256 + 0x81)
  rw [hop] at hcmd
  unfold readRollingCode
  simp only [constWireline, Nat.zero_mod, Nat.mod_eq_of_lt hdata, hcmd, if_true]
  simp only [and_0xf, Nat.shiftRight_eq_div_pow]
  omega

theorem doorStates_miss (d : Declarations) : ∃ n, n < 16 ∧ n ∉ doorStates d := by
  by_contra hall
  have hmem : ∀ n, n < 7 → n ∈ doorStates d := by
    intro n hn
    by_contra hnot
    exact hall ⟨n, by omega, hnot⟩
  have hsub : Finset.range 7 ⊆ (doorStates d).toFinset := by
    intro n hnr
    exact List.mem_toFinset.mpr (hmem n (Finset.mem_range.mp hnr))
  have hcard := Finset.card_le_card hsub
  have hlen := List.toFinset_card_le (doorStates d)
  simp only [Finset.card_range] at hcard
  have hsix : (doorStates d).length = 6 := rfl
  omega

/-- The door nibble of a status report is stored unchecked: with the enumerator
values 0 to 5, the frame `doorSixFrame` takes the door state from Unknown (0) to
6, which is none of the six values; and whatever values the six enumerators
have, there is no assignment for which every frame keeps a valid door state
valid. -/
theorem readRollingCode_door_outside_enum :
    (zeroStore.doorState ∈ doorStates sampleDeclarations
        ∧ (readRollingCode sampleWireline doorSixFrame zeroStore).doorState = 6
        ∧ (readRollingCode sampleWireline doorSixFrame zeroStore).doorState
            ∉ doorStates sampleDeclarations)
      ∧ ¬ ∃ d : Declarations, ∀ (w : Wireline) (rx : Frame) (st : RATGDOStore),
          st.doorState ∈ doorStates d → (readRollingCode w rx st).doorState ∈ doorStates d := by
  refine ⟨by decide, ?_⟩
  rintro ⟨d, hkeeps⟩
  obtain ⟨n, hn, hmiss⟩ := doorStates_miss d
  have hvalid : ({ zeroStore with doorState := d.DOOR_STATE_UNKNOWN } : RATGDOStore).doorState
      ∈ doorStates d := by
    simp [doorStates]
  have hafter := hkeeps (constWireline (n * 256 + 0x81)) zeroFrame _ hvalid
  rw [readRollingCode_door_nibble n hn] at hafter
  exact hmiss hafter

theorem opcode_status_nibble (n : Nat) (hn : n < 16) :
    n * 256 + 0x81 < 2 ^ 32 ∧ opcode 0 (n * 256 + 0x81) = 0x081
      ∧ (n * 256 + 0x81) / 2 ^ 8 % 16 = n := by
  refine ⟨by omega, ?_, by omega⟩
  unfold opcode
  simp only [and_0xff, Nat.zero_shiftRight, Nat.zero_and, Nat.zero_or]
  omega

/-- C17, amended. For every frame ingested by `readRollingCode`: when the opcode
of the decoded fields is `0x081`, the resulting door value is the door nibble of
the status report, bits 8..11 of `data`, a value below 16 that is stored without
a check against the six values of `DoorState`; on every other opcode the door
value is the previous one. Every value from 0 to 15 is the door nibble of some
`0x081` status report, and that report stores it. -/
theorem readRollingCode_door_range (w : Wireline) (rx : Frame) (st : RATGDOStore)
    (rolling fixed data : Nat)
    (hdec : w.decode_wireline rx = (rolling, fixed, data))
    (hfixed : fixed < 2 ^ 64) (hdata : data < 2 ^ 32) :
    ((opcode fixed data = 0x081
          ∧ (readRollingCode w rx st).doorState = data / 2 ^ 8 % 16
          ∧ (readRollingCode w rx st).doorState < 16)
        ∨ (opcode fixed data ≠ 0x081
          ∧ (readRollingCode w rx st).doorState = st.doorState))
      ∧ ∀ n, n < 16 → ∃ (w2 : Wireline) (rx2 : Frame) (data2 : Nat),
          w2.decode_wireline rx2 = (0, 0, data2) ∧ data2 < 2 ^ 32
            ∧ opcode 0 data2 = 0x081 ∧ data2 / 2 ^ 8 % 16 = n
            ∧ (readRollingCode w2 rx2 st).doorState = n := by
  have hdoor := readRollingCode_doorState w rx st rolling fixed data hdec hfixed hdata
  constructor
  · by_cases h081 : opcode fixed data = 0x081
    · left
      rw [hdoor, if_pos h081]
      exact ⟨h081, rfl, Nat.mod_lt _ (by norm_num)⟩
    · right
      rw [hdoor, if_neg h081]
      exact ⟨h081, rfl⟩
  · intro n hn
    obtain ⟨hlt, hop, hnib⟩ := opcode_status_nibble n hn
    exact ⟨constWireline (n * 256 + 0x81), zeroFrame, n * 256 + 0x81, rfl, hlt, hop, hnib,
      readRollingCode_door_nibble n hn st⟩

/-! ## Bounds of the frame scanner -/

theorem take3_write (f : Frame) (i v : Nat) (hi : 3 ≤ i) :
    (f.write i v).bytes.take 3 = f.bytes.take 3 := by
  obtain ⟨k, rfl⟩ := Nat.exists_eq_add_of_le hi
  obtain ⟨bytes, size⟩ := f
  obtain ⟨a0, a1, a2, a3, a4, a5, a6, a7, a8, a9, a10, a11, a12, a13, a14, a15, a16, a17, a18,
    rfl⟩ := bytes19 bytes size
  simp only [Frame.write, Nat.add_comm 3 k, List.set_cons_succ, List.take_succ_cons,
    List.take_zero]

theorem take3_preamble (f : Frame) :
    (((f.write 0 0x55).write 1 0x01).write 2 0x00).bytes.take 3 = [0x55, 0x01, 0x00] := by
  obtain ⟨bytes, size⟩ := f
  obtain ⟨a0, a1, a2, a3, a4, a5, a6, a7, a8, a9, a10, a11, a12, a13, a14, a15, a16, a17, a18,
    rfl⟩ := bytes19 bytes size
  rfl

/-- One call of `gdoStateLoop` keeps the capturing bounds, and a frame it hands
over starts with the preamble. -/
theorem gdoStateLoop_captureInv (w : Wireline) (input : Option Nat) (s : RATGDOComponent)
    (hinv : captureInv s) :
    captureInv (gdoStateLoop w input s)
      ∧ ∀ f ∈ (gdoStateLoop w input s).ingested,
          f ∈ s.ingested ∨ f.bytes.take 3 = [0x55, 0x01, 0x00] := by
  cases input with
  | none => exact ⟨hinv, fun f hf => Or.inl hf⟩
  | some b =>
    cases hr : s.reading with
    | false =>
      have hs := scanning_self s hr
      rw [← hs]
      by_cases hm : shiftIn s.msgStart b = 0x550100
      · rw [gdoStateLoop_hit w s _ b hm]
        refine ⟨fun _ => ⟨?_, ?_, take3_preamble _⟩, fun f hf => Or.inl hf⟩
        · exact Nat.le_refl 3
        · show (3 : Nat) ≤ 18
          omega
      · rw [gdoStateLoop_miss w s _ b hm]
        refine ⟨fun hread => ?_, fun f hf => Or.inl hf⟩
        exact absurd hread (by simp [scanning])
    | true =>
      obtain ⟨h3, h18, hpre⟩ := hinv hr
      by_cases hlast : s.byteCount = 18
      · have hstep : gdoStateLoop w (some b) s
            = { s with
                reading := false, msgStart := 0, byteCount := 0
                rxRollingCode := s.rxRollingCode.write 18 (b % 2 ^ 8)
                store_ := readRollingCode w (s.rxRollingCode.write 18 (b % 2 ^ 8)) s.store_
                ingested := s.ingested ++ [s.rxRollingCode.write 18 (b % 2 ^ 8)] } := by
          simp [gdoStateLoop, hr, hlast]
        rw [hstep]
        refine ⟨fun hread => absurd hread (by simp), fun f hf => ?_⟩
        rcases List.mem_append.mp hf with hold | hnew
        · exact Or.inl hold
        · right
          rw [List.mem_singleton.mp hnew, take3_write _ _ _ (by omega)]
          exact hpre
      · have h1 : (s.byteCount + 1) % 2 ^ 16 = s.byteCount + 1 := Nat.mod_eq_of_lt (by omega)
        have h2 : ¬ (s.byteCount + 1 = 19) := by omega
        have hstep : gdoStateLoop w (some b) s
            = { s with
                rxRollingCode := s.rxRollingCode.write s.byteCount (b % 2 ^ 8)
                byteCount := s.byteCount + 1 } := by
          simp only [gdoStateLoop, hr, h1, h2, if_false, if_true, Bool.true_eq_false,
            Bool.false_eq_true]
        rw [hstep]
        refine ⟨fun _ => ⟨?_, ?_, ?_⟩, fun f hf => Or.inl hf⟩
        · show 3 ≤ s.byteCount + 1
          omega
        · show s.byteCount + 1 ≤ 18
          omega
        · show (s.rxRollingCode.write s.byteCount (b % 2 ^ 8)).bytes.take 3 = _
          rw [take3_write _ _ _ h3]
          exact hpre

theorem feed_captureInv (w : Wireline) (bytes : List Nat) :
    ∀ s : RATGDOComponent, captureInv s →
      captureInv (feed w bytes s)
        ∧ ∀ f ∈ (feed w bytes s).ingested,
            f ∈ s.ingested ∨ f.bytes.take 3 = [0x55, 0x01, 0x00] := by
  induction bytes with
  | nil => intro s hinv; exact ⟨hinv, fun f hf => Or.inl hf⟩
  | cons b bs ih =>
    intro s hinv
    obtain ⟨hinv1, hnew1⟩ := gdoStateLoop_captureInv w (some b) s hinv
    obtain ⟨hinv2, hnew2⟩ := ih (gdoStateLoop w (some b) s) hinv1
    rw [feed_cons]
    refine ⟨hinv2, fun f hf => ?_⟩
    rcases hnew2 f hf with hmid | hpre
    · exact hnew1 f hmid
    · exact Or.inr hpre

/-- C20. From the scanning state, after any stream of input bytes fed to
`gdoStateLoop`: if the scanner is capturing, its byte count is from 3 to 18, so
the index at which the next byte is stored lies inside the receive buffer; and
every frame handed to `readRollingCode` during the stream starts with the bytes
`0x55, 0x01, 0x00`. -/
theorem gdoStateLoop_capture_bounds (w : Wireline) (bytes : List Nat) (s : RATGDOComponent)
    (hscan : s.reading = false) :
    ((feed w bytes s).reading = true →
        3 ≤ (feed w bytes s).byteCount ∧ (feed w bytes s).byteCount ≤ 18
          ∧ (feed w bytes s).byteCount < (feed w bytes s).rxRollingCode.bytes.length)
      ∧ ∀ f ∈ (feed w bytes s).ingested,
          f ∈ s.ingested ∨ f.bytes.take 3 = [0x55, 0x01, 0x00] := by
  have hinv : captureInv s := fun hread => absurd hread (by simp [hscan])
  obtain ⟨hafter, hframes⟩ := feed_captureInv w bytes s hinv
  refine ⟨fun hread => ?_, hframes⟩
  obtain ⟨h3, h18, _⟩ := hafter hread
  refine ⟨h3, h18, ?_⟩
  rw [(feed w bytes s).rxRollingCode.size]
  omega

/-- A run of C20 from the zero component: after the preamble and five more
bytes the scanner is capturing with byte count 8. -/
theorem gdoStateLoop_capture_bounds_witness :
    (feed sampleWireline [0x55, 0x01, 0x00, 1, 2, 3, 4, 5] zeroComponent).byteCount = 8
      ∧ (((feed sampleWireline [0x55, 0x01, 0x00, 1, 2, 3, 4, 5] zeroComponent).reading = true →
          3 ≤ (feed sampleWireline [0x55, 0x01, 0x00, 1, 2, 3, 4, 5] zeroComponent).byteCount
            ∧ (feed sampleWireline [0x55, 0x01, 0x00, 1, 2, 3, 4, 5] zeroComponent).byteCount ≤ 18
            ∧ (feed sampleWireline [0x55, 0x01, 0x00, 1, 2, 3, 4, 5] zeroComponent).byteCount
                < (feed sampleWireline [0x55, 0x01, 0x00, 1, 2, 3, 4, 5]
                    zeroComponent).rxRollingCode.bytes.length)
        ∧ ∀ f ∈ (feed sampleWireline [0x55, 0x01, 0x00, 1, 2, 3, 4, 5] zeroComponent).ingested,
            f ∈ zeroComponent.ingested ∨ f.bytes.take 3 = [0x55, 0x01, 0x00]) :=
  ⟨by decide,
   gdoStateLoop_capture_bounds sampleWireline [0x55, 0x01, 0x00, 1, 2, 3, 4, 5] zeroComponent
     rfl⟩

/-- A run of the amended C17: the status report with door nibble 6 stores 6, and
the motion frame (opcode `0x285`) leaves the door state 2 as it was. -/
theorem readRollingCode_door_range_witness :
    sampleWireline.decode_wireline doorSixFrame = (0, 0, 0x681)
      ∧ ((opcode 0 0x681 = 0x081
            ∧ (readRollingCode sampleWireline doorSixFrame zeroStore).doorState
                = 0x681 / 2 ^ 8 % 16
            ∧ (readRollingCode sampleWireline doorSixFrame zeroStore).doorState < 16)
          ∨ (opcode 0 0x681 ≠ 0x081
            ∧ (readRollingCode sampleWireline doorSixFrame zeroStore).doorState
                = zeroStore.doorState))
      ∧ (readRollingCode sampleWireline doorSixFrame zeroStore).doorState = 6
      ∧ ((opcode 0x200000000 0x85 = 0x081
            ∧ (readRollingCode sampleWireline motionFrame
                { zeroStore with doorState := 2 }).doorState = 0x85 / 2 ^ 8 % 16
            ∧ (readRollingCode sampleWireline motionFrame
                { zeroStore with doorState := 2 }).doorState < 16)
          ∨ (opcode 0x200000000 0x85 ≠ 0x081
            ∧ (readRollingCode sampleWireline motionFrame
                { zeroStore with doorState := 2 }).doorState
                = ({ zeroStore with doorState := 2 } : RATGDOStore).doorState)) :=
  ⟨by decide,
   (readRollingCode_door_range sampleWireline doorSixFrame zeroStore 0 0 0x681
      (by decide) (by decide) (by decide)).1,
   by decide,
   (readRollingCode_door_range sampleWireline motionFrame { zeroStore with doorState := 2 }
      0 0x200000000 0x85 (by decide) (by decide) (by decide)).1⟩

/-! ## First rising edge without a falling edge -/

theorem sub32_zero (t : Nat) (hclock : t < 2 ^ 32) : sub32 t 0 = t := by
  have h := sub32_eq t 0 (Nat.zero_le t) hclock
  simpa using h

/-- C21. From a debouncer state in which no falling edge was ever recorded (the
three stored falling-edge times are 0), for each of the three contact handlers:
a first rising edge at a time `t` with `2000 ≤ t < 10000` ms latches the event
of that contact, although no falling edge preceded it, and changes nothing
else; a first rising edge at `t ≥ 10000` ms leaves the debouncer state as it
was. The time is a value of the 32-bit millisecond clock. -/
theorem first_rising_edge_latches (c : ContactIsr) (t : Nat)
    (hopen : c.lastOpenDoorTime = 0) (hclose : c.lastCloseDoorTime = 0)
    (hlight : c.lastToggleLightTime = 0) (hclock : t < 2 ^ 32) :
    (2000 ≤ t ∧ t < 10000 →
        isrDoorOpen t true c = { c with arg := { c.arg with dryContactDoorOpen := true } }
          ∧ isrDoorClose t true c
              = { c with arg := { c.arg with dryContactDoorClose := true } }
          ∧ isrLight t true c
              = { c with arg := { c.arg with dryContactToggleLight := true } })
      ∧ (10000 ≤ t →
        isrDoorOpen t true c = c ∧ isrDoorClose t true c = c ∧ isrLight t true c = c) := by
  have hsub := sub32_zero t hclock
  constructor
  · rintro ⟨hlo, hhi⟩
    have hguard : ¬ t < 2000 := by omega
    have h500 : 500 < t := by omega
    refine ⟨?_, ?_, ?_⟩
    · simp only [isrDoorOpen, STARTUP_DELAY, hguard, if_false, Bool.not_true, hopen, hsub,
        gt_iff_lt, h500, hhi, and_self, if_true, Bool.false_eq_true]
    · simp only [isrDoorClose, STARTUP_DELAY, hguard, if_false, Bool.not_true, hclose, hsub,
        gt_iff_lt, h500, hhi, and_self, if_true, Bool.false_eq_true]
    · simp only [isrLight, STARTUP_DELAY, hguard, if_false, Bool.not_true, hlight, hsub,
        gt_iff_lt, h500, hhi, and_self, if_true, Bool.false_eq_true]
  · intro hlate
    have hguard : ¬ t < 2000 := by omega
    have hhi : ¬ t < 10000 := by omega
    refine ⟨?_, ?_, ?_⟩
    · simp only [isrDoorOpen, STARTUP_DELAY, hguard, if_false, Bool.not_true, hopen, hsub,
        gt_iff_lt, hhi, and_false, Bool.false_eq_true]
    · simp only [isrDoorClose, STARTUP_DELAY, hguard, if_false, Bool.not_true, hclose, hsub,
        gt_iff_lt, hhi, and_false, Bool.false_eq_true]
    · simp only [isrLight, STARTUP_DELAY, hguard, if_false, Bool.not_true, hlight, hsub,
        gt_iff_lt, hhi, and_false, Bool.false_eq_true]

/-- A run of C21 from the startup debouncer state: a first rising edge at
2000 ms latches the open event, a first rising edge at 10000 ms does not. -/
theorem first_rising_edge_latches_witness :
    (isrDoorOpen 2000 true initialContactIsr).arg.dryContactDoorOpen = true
      ∧ initialContactIsr.arg.dryContactDoorOpen = false
      ∧ isrDoorOpen 10000 true initialContactIsr = initialContactIsr :=
  ⟨congrArg (fun r => r.arg.dryContactDoorOpen)
      ((first_rising_edge_latches initialContactIsr 2000 rfl rfl rfl (by decide)).1
        ⟨by decide, by decide⟩).1,
   rfl,
   ((first_rising_edge_latches initialContactIsr 10000 rfl rfl rfl (by decide)).2
      (by decide)).1⟩

end Ratgdo
